import Mathlib

/-!
# PgDriver: a shallow embedding of `src/PgDriver.js`

The driver is a JavaScript class whose methods mutate `this` and talk to a
socket.  Every method is embedded as a function on an explicit `Driver`
state.  Two fields of the state are observation logs that the source does not
have: `written` (the buffers handed to `socket.write` / `socket.end`) and
`invoked` (the continuations called, with a snapshot of their arguments).

Conventions
* a Node `Buffer` is a list of byte values;
* a JavaScript string is a `String`; `jsLength` is its `.length` (UTF-16 code
  units) and `utf8Encode` its UTF-8 bytes, which differ for non-ASCII text;
* a function of the source that can raise a JavaScript exception returns a
  `Completion` next to the state it leaves behind (an exception does not roll
  the state back);
* the two unbounded loops (`do ... while` of `_parser`, `while` of `_error`)
  take a fuel argument and answer `Completion.running` when it is exhausted;
* continuations are opaque: they are recorded, not run, so they do not
  re-enter the driver while a handler is active;
* `types.json` and Node's `crypto` MD5 are not part of the sources: they are
  the two fields of `Env`.
-/

namespace PgDriver

/-! ## Node.js `Buffer` and string primitives -/

/-- A Node `Buffer`: its bytes in order. -/
abbrev Buffer := List Nat

/-- JavaScript exceptions the driver can run into. -/
inductive JsError where
  | rangeError
  | typeError
  deriving DecidableEq, Repr

/-- How a call of a driver method ends. -/
inductive Completion where
  | normal
  | throw (e : JsError)
  | running
  deriving DecidableEq, Repr

/-- `Buffer.alloc(size)`: a zero-filled buffer. -/
def alloc (size : Nat) : Buffer := List.replicate size 0

/-- The four big-endian bytes of a 32-bit two's complement integer. -/
def int32Bytes (v : Int) : List Nat :=
  let u := (v % 4294967296).toNat
  [u / 16777216 % 256, u / 65536 % 256, u / 256 % 256, u % 256]

/-- The two big-endian bytes of a 16-bit two's complement integer. -/
def int16Bytes (v : Int) : List Nat :=
  let u := (v % 65536).toNat
  [u / 256 % 256, u % 256]

/-- `buf.readInt32BE(offset)`: range-checked, signed. -/
def readInt32BE (buf : Buffer) (offset : Int) : Except JsError Int :=
  if offset < 0 ∨ (buf.length : Int) < offset + 4 then .error .rangeError
  else
    let o := offset.toNat
    let u := buf.getD o 0 * 16777216 + buf.getD (o + 1) 0 * 65536
      + buf.getD (o + 2) 0 * 256 + buf.getD (o + 3) 0
    .ok (if 2147483648 ≤ u then (u : Int) - 4294967296 else (u : Int))

/-- `buf.readInt16BE(offset)`: range-checked, signed. -/
def readInt16BE (buf : Buffer) (offset : Int) : Except JsError Int :=
  if offset < 0 ∨ (buf.length : Int) < offset + 2 then .error .rangeError
  else
    let o := offset.toNat
    let u := buf.getD o 0 * 256 + buf.getD (o + 1) 0
    .ok (if 32768 ≤ u then (u : Int) - 65536 else (u : Int))

/-- `buf.writeInt32BE(value, offset)`: throws when the value is no int32 or
the four bytes do not fit. -/
def writeInt32BE (buf : Buffer) (value : Int) (offset : Nat) : Except JsError Buffer :=
  if value < -2147483648 ∨ 2147483647 < value ∨ buf.length < offset + 4 then
    .error .rangeError
  else .ok (buf.take offset ++ int32Bytes value ++ buf.drop (offset + 4))

/-- `buf.indexOf(value, byteOffset)` for a byte value and a non-negative
offset: the first index at or after `byteOffset` holding `value`, else -1. -/
def indexOfFrom (value : Nat) : List Nat → Nat → Int
  | [], _ => -1
  | b :: bs, i => if b = value then (i : Int) else indexOfFrom value bs (i + 1)

/-- See `indexOfFrom`. -/
def indexOf (buf : Buffer) (value : Nat) (byteOffset : Nat) : Int :=
  indexOfFrom value (buf.drop byteOffset) byteOffset

/-- `buf.slice(start, end)` for non-negative bounds (clamped to the buffer). -/
def slice (buf : Buffer) (start stop : Nat) : Buffer :=
  (buf.drop start).take (stop - start)

/-- `s.length` of a JavaScript string: UTF-16 code units. -/
def jsLength (s : String) : Nat :=
  (s.data.map (fun c => if c.toNat < 65536 then 1 else 2)).sum

/-- UTF-8 bytes of one character. -/
def utf8EncodeChar (c : Char) : List Nat :=
  let v := c.toNat
  if v < 128 then [v]
  else if v < 2048 then [192 + v / 64, 128 + v % 64]
  else if v < 65536 then [224 + v / 4096, 128 + v / 64 % 64, 128 + v % 64]
  else [240 + v / 262144, 128 + v / 4096 % 64, 128 + v / 64 % 64, 128 + v % 64]

/-- UTF-8 bytes of a string (`Buffer.from(s)`). -/
def utf8Encode (s : String) : List Nat := s.data.flatMap utf8EncodeChar

/-- Bytes of the longest run of leading characters whose encoding fits in
`room` bytes: `buf.write` never writes part of a character. -/
def fitChars : List Char → Nat → List Nat
  | [], _ => []
  | c :: cs, room =>
    let e := utf8EncodeChar c
    if e.length ≤ room then e ++ fitChars cs (room - e.length) else []

/-- `buf.write(s, offset)` with the default UTF-8 encoding; every call site of
the driver has `offset ≤ buf.length`. -/
def write (buf : Buffer) (s : String) (offset : Nat) : Buffer :=
  let bytes := fitChars s.data (buf.length - offset)
  buf.take offset ++ bytes ++ buf.drop (offset + bytes.length)

/-- The replacement character U+FFFD a decoder emits for malformed input. -/
def replacementChar : Char := Char.ofNat 65533

/-- What a UTF-8 decoder does with a byte met outside a sequence. -/
inductive Utf8Step where
  | emit (c : Char)
  | more (needed cp lower upper : Nat)

/-- First byte of a UTF-8 sequence. -/
def utf8Start (b : Nat) : Utf8Step :=
  if b < 128 then .emit (Char.ofNat b)
  else if 194 ≤ b ∧ b ≤ 223 then .more 1 (b % 32) 128 191
  else if 224 ≤ b ∧ b ≤ 239 then
    .more 2 (b % 16) (if b = 224 then 160 else 128) (if b = 237 then 159 else 191)
  else if 240 ≤ b ∧ b ≤ 244 then
    .more 3 (b % 8) (if b = 240 then 144 else 128) (if b = 244 then 143 else 191)
  else .emit replacementChar

/-- UTF-8 decoding with replacement of malformed sequences; the second
argument is the sequence in progress (bytes needed, code point so far, bounds
of the next continuation byte). -/
def utf8DecodeAux : List Nat → Option (Nat × Nat × Nat × Nat) → List Char
  | [], none => []
  | [], some _ => [replacementChar]
  | b :: bs, none =>
    match utf8Start b with
    | .emit c => c :: utf8DecodeAux bs none
    | .more n cp lo hi => utf8DecodeAux bs (some (n, cp, lo, hi))
  | b :: bs, some (n, cp, lo, hi) =>
    if lo ≤ b ∧ b ≤ hi then
      if n = 1 then Char.ofNat (cp * 64 + b % 64) :: utf8DecodeAux bs none
      else utf8DecodeAux bs (some (n - 1, cp * 64 + b % 64, 128, 191))
    else
      match utf8Start b with
      | .emit c => replacementChar :: c :: utf8DecodeAux bs none
      | .more m cp2 lo2 hi2 => replacementChar :: utf8DecodeAux bs (some (m, cp2, lo2, hi2))

/-- The string a byte sequence decodes to. -/
def utf8Decode (bytes : List Nat) : String := String.mk (utf8DecodeAux bytes none)

/-- `buf.toString('utf-8', start, end)`: the bounds are clamped as Node does
(a start at or past the end, or an end not after the start, gives ""). -/
def toString (buf : Buffer) (start stop : Int) : String :=
  let len : Int := buf.length
  if 0 < start ∧ len ≤ start then ""
  else
    let s : Int := if start ≤ 0 then 0 else start
    let e : Int := if len < stop then len else stop
    if e ≤ s then "" else utf8Decode (slice buf s.toNat e.toNat)

/-- `String.fromCharCode(buf[i])` as the code unit of the one-character
string it returns; an index outside the buffer reads `undefined`, whose
character code is 0. -/
def fromCharCode (x : Option Nat) : Nat := x.getD 0 % 65536

/-! ## Data model of the driver -/

/-- A row object `{}` filled by `row[name] = value`.  `props` lists the own
properties in the order of their first assignment; a value is `none` for the
JavaScript `null`.  `detached` records that the prototype has been set to
`null` (what `row["__proto__"] = null` does). -/
structure Row where
  detached : Bool
  props : List (String × Option String)
  deriving DecidableEq, Repr

/-- Assignment in an association list: an existing key keeps its place. -/
def assign (k : String) (v : Option String) :
    List (String × Option String) → List (String × Option String)
  | [] => [(k, v)]
  | (k2, v2) :: rest => if k2 = k then (k, v) :: rest else (k2, v2) :: assign k v rest

/-- `row[key] = value`.  While the object still inherits from
`Object.prototype`, the key `__proto__` is an accessor: assigning `null`
detaches the prototype and assigning a string is ignored; either way no own
property is created. -/
def Row.set (row : Row) (key : String) (value : Option String) : Row :=
  if key = "__proto__" ∧ row.detached = false then
    match value with
    | none => { row with detached := true }
    | some _ => row
  else { row with props := assign key value row.props }

/-- `row[key]` restricted to own properties: `none` when there is none. -/
def Row.get (row : Row) (key : String) : Option (Option String) :=
  (row.props.find? (fun kv => kv.1 = key)).map (fun kv => kv.2)

/-- The object literal `{}`. -/
def Row.empty : Row := { detached := false, props := [] }

/-- The property key a value of `results.fields[i]` is converted to: an
index past the end reads `undefined`, whose key is "undefined". -/
def propertyKey (x : Option String) : String := x.getD "undefined"

/-- The object `this.results`. -/
structure Results where
  fields : List String
  types : List (Option String)
  rows : List Row
  status : String
  deriving DecidableEq, Repr

/-- The object `err` built by `_error`: a property is `none` while unset. -/
structure ErrObj where
  code : Option String
  message : Option String
  severity : Option String
  deriving DecidableEq, Repr

/-- The client's configuration object. -/
structure Config where
  host : String
  port : Nat
  user : String
  password : String
  database : String
  deriving DecidableEq, Repr

/-- A continuation passed by the client, known by its identity only. -/
abbrev Callback := Nat

/-- First argument of a continuation, when it is not `null`/absent. -/
inductive ErrArg where
  | socket (code : String)
  | server (err : ErrObj)
  deriving DecidableEq, Repr

/-- Second argument of a continuation, when present. -/
inductive ResArg where
  | text (s : String)
  | results (r : Results)
  deriving DecidableEq, Repr

/-- One call `callback(err, res)`, with the values the arguments had then. -/
structure Invocation where
  callback : Callback
  err : Option ErrArg
  res : Option ResArg
  deriving DecidableEq, Repr

/-- An element of `queryQueue`: `connect` pushes `{callback}` (no buffer),
`query` pushes `{buffer, callback}`. -/
structure QueueEntry where
  buffer : Option Buffer
  callback : Callback
  deriving DecidableEq, Repr

/-- The fields of a `PgDriver` object, the two observation logs `written` and
`invoked`, and what is known of the socket (`socketCreated`: `this.socket`
is no longer `null`; `ended`: `socket.end` was called).  `data` is `[]` for
the initial `null`; it is only read after `_parser` has set it. -/
structure Driver where
  config : Option Config
  callback : Option Callback
  data : Buffer
  queryQueue : List QueueEntry
  results : Results
  isReadyForQuery : Bool
  socketCreated : Bool
  ended : Bool
  written : List Buffer
  invoked : List Invocation
  deriving DecidableEq, Repr

/-- What the driver takes from outside its sources: the table of
`types.json` (`TYPES[oid]`, `none` for `undefined`) and the hex digest of
MD5 (`crypto.createHash('md5').update(bytes).digest('hex')`). -/
structure Env where
  TYPES : Int → Option String
  md5hex : Buffer → String

/-- The `constructor`. -/
def new : Driver :=
  { config := none, callback := none, data := [], queryQueue := [],
    results := { fields := [], types := [], rows := [], status := "" },
    isReadyForQuery := false, socketCreated := false, ended := false,
    written := [], invoked := [] }

/-- The effect of `socket.write(buffer)` on a socket that exists. -/
def socketWrite (buffer : Buffer) (d : Driver) : Driver :=
  { d with written := d.written ++ [buffer] }

/-- The statement `this.socket.write(buffer)`: a TypeError while
`this.socket` is still `null`. -/
def socketSend (buffer : Buffer) (d : Driver) : Driver × Completion :=
  if d.socketCreated = true then (socketWrite buffer d, .normal) else (d, .throw .typeError)

/-- A call `callback(err, res)`. -/
def invoke (cb : Callback) (err : Option ErrArg) (res : Option ResArg) (d : Driver) : Driver :=
  { d with invoked := d.invoked ++ [{ callback := cb, err := err, res := res }] }

/-! ## The methods of `PgDriver` -/

/-- `connect(config, callback)`. -/
def connect (config : Config) (callback : Callback) (d : Driver) : Driver :=
  { d with config := some config,
           queryQueue := d.queryQueue ++ [{ buffer := none, callback := callback }],
           socketCreated := true }

/-- The buffer `_startup` builds (lines 70-80). -/
def startupBuffer (config : Config) : Except JsError Buffer := do
  let user := config.user
  let db := config.database
  let params := "user\x00" ++ user ++ "\x00database\x00" ++ db ++ "\x00\x00"
  let buffer := alloc (4 + 4 + jsLength params)
  let buffer ← writeInt32BE buffer buffer.length 0
  let buffer ← writeInt32BE buffer 196608 4
  let buffer := write buffer params 8
  pure buffer

/-- `_startup()`. -/
def _startup (d : Driver) : Driver × Completion :=
  match d.config with
  | none => (d, .throw .typeError)
  | some config =>
    match startupBuffer config with
    | .error e => (d, .throw e)
    | .ok buffer => socketSend buffer d

/-- The listener of the socket's "connect" event. -/
def onConnect (err : Option String) (d : Driver) : Driver × Completion :=
  match d.queryQueue with
  | [] => (d, .throw .typeError)
  | next :: rest =>
    let d := { d with queryQueue := rest }
    match err with
    | some e => (invoke next.callback (some (.socket e)) none d, .normal)
    | none => _startup (invoke next.callback none (some (.text "Connection successful.")) d)

/-- The listener of the custom "readyForQuery" event. -/
def onReadyForQuery (d : Driver) : Driver × Completion :=
  match d.queryQueue with
  | next :: rest =>
    let d := { d with isReadyForQuery := false, queryQueue := rest }
    match next.buffer with
    | none => (d, .throw .typeError)
    | some buffer =>
      if d.socketCreated = true then
        ({ socketWrite buffer d with callback := some next.callback }, .normal)
      else (d, .throw .typeError)
  | [] => ({ d with isReadyForQuery := true }, .normal)

/-- The statement `this.socket.emit('readyForQuery')` of `_parser`: it runs
the listener; a TypeError while `this.socket` is still `null`. -/
def emitReadyForQuery (d : Driver) : Driver × Completion :=
  if d.socketCreated = true then onReadyForQuery d else (d, .throw .typeError)

/-- `_password(offset)`. -/
def _password (env : Env) (offset : Nat) (d : Driver) : Driver × Completion :=
  let start := offset
  match readInt32BE d.data start with
  | .error e => (d, .throw e)
  | .ok passwordType =>
    let start := start + 4
    if passwordType = 0 then (d, .normal)
    else if passwordType = 5 then
      let salt := slice d.data start (start + 4)
      match d.config with
      | none => (d, .throw .typeError)
      | some config =>
        let str := config.password ++ config.user
        let inner := env.md5hex (utf8Encode str)
        let buff := utf8Encode inner ++ salt
        let pwd := "md5" ++ env.md5hex buff
        let length := 4 + jsLength pwd + 1
        let buffer := alloc (1 + length)
        let buffer := write buffer "p" 0
        match writeInt32BE buffer length 1 with
        | .error e => (d, .throw e)
        | .ok buffer =>
          let buffer := write buffer (pwd ++ "\x00") 5
          socketSend buffer d
    else (d, .normal)

/-- The buffer `query` builds (lines 162-168). -/
def queryBuffer (text : String) : Except JsError Buffer := do
  let length := 4 + jsLength text + 1
  let buffer := alloc (1 + length)
  let buffer := write buffer "Q" 0
  let buffer ← writeInt32BE buffer length 1
  let buffer := write buffer (text ++ "\x00") 5
  pure buffer

/-- `query(text, callback)`. -/
def query (text : String) (callback : Callback) (d : Driver) : Driver × Completion :=
  match queryBuffer text with
  | .error e => (d, .throw e)
  | .ok buffer =>
    if d.isReadyForQuery = true ∧ d.queryQueue.length = 0 then
      socketSend buffer { d with isReadyForQuery := false, callback := some callback }
    else
      ({ d with queryQueue := d.queryQueue ++ [{ buffer := some buffer, callback := callback }] },
        .normal)

/-- The table `errorFields` applied to a one-character string: the setter of
the property it names. -/
def errorFields (fieldType : Nat) : Option (ErrObj → String → ErrObj) :=
  if fieldType = 'C'.toNat then some (fun err field => { err with code := some field })
  else if fieldType = 'M'.toNat then some (fun err field => { err with message := some field })
  else if fieldType = 'S'.toNat then some (fun err field => { err with severity := some field })
  else none

/-- The `while (start < length)` loop of `_error`; `none` when the fuel runs
out. -/
def _errorLoop (data : Buffer) (length : Int) : Nat → Nat → ErrObj → Option ErrObj
  | 0, _, _ => none
  | fuel + 1, start, err =>
    if (start : Int) < length then
      let fieldType := fromCharCode data[start]?
      let start := start + 1
      if fieldType = '0'.toNat then _errorLoop data length fuel start err
      else
        let stop := indexOf data 0 start
        let field := toString data start stop
        let err := match errorFields fieldType with
          | some setter => setter err field
          | none => err
        _errorLoop data length fuel (stop + 1).toNat err
    else some err

/-- `_error(offset, length)`. -/
def _error (fuel : Nat) (offset : Nat) (length : Int) (d : Driver) : Driver × Completion :=
  match _errorLoop d.data length fuel offset { code := none, message := none, severity := none } with
  | none => (d, .running)
  | some err =>
    if err.severity = some "ERROR" ∨ err.severity = some "FATAL" then
      match d.callback with
      | none => (d, .throw .typeError)
      | some cb => (invoke cb (some (.server err)) none d, .normal)
    else (d, .normal)

/-- The `for` loop of `_fields`: `n` iterations are left, `start` is the
cursor. -/
def _fieldsLoop (env : Env) (data : Buffer) : Nat → Nat → Results → Results × Completion
  | 0, _, r => (r, .normal)
  | n + 1, start, r =>
    let stop := indexOf data 0 start
    let fieldName := toString data start stop
    let r := { r with fields := r.fields ++ [fieldName] }
    let start := (stop + 1).toNat
    let start := start + (4 + 2)
    match readInt32BE data start with
    | .error e => (r, .throw e)
    | .ok oid_type =>
      let r := { r with types := r.types ++ [env.TYPES oid_type] }
      _fieldsLoop env data n (start + (4 + 2 + 4 + 2)) r

/-- `_fields(offset)`. -/
def _fields (env : Env) (offset : Nat) (d : Driver) : Driver × Completion :=
  let start := offset
  match readInt16BE d.data start with
  | .error e => (d, .throw e)
  | .ok nFields =>
    let start := start + 2
    if nFields = 0 then (d, .normal)
    else
      let out := _fieldsLoop env d.data nFields.toNat start d.results
      ({ d with results := out.1 }, out.2)

/-- The `for` loop of `_rows`: `n` iterations are left, `i` is the column
index, `start` the cursor. -/
def _rowsLoop (data : Buffer) (fields : List String) : Nat → Nat → Int → Row → Except JsError Row
  | 0, _, _, row => .ok row
  | n + 1, i, start, row =>
    let name_col := propertyKey fields[i]?
    match readInt32BE data start with
    | .error e => .error e
    | .ok len =>
      let start := start + 4
      if len = -1 then _rowsLoop data fields n (i + 1) start (row.set name_col none)
      else
        let val_col := toString data start (start + len)
        _rowsLoop data fields n (i + 1) (start + len) (row.set name_col (some val_col))

/-- `_rows(offset)`. -/
def _rows (offset : Nat) (d : Driver) : Driver × Completion :=
  let start := offset
  match readInt16BE d.data start with
  | .error e => (d, .throw e)
  | .ok nColumns =>
    let start := start + 2
    if nColumns = 0 then (d, .normal)
    else
      match _rowsLoop d.data d.results.fields nColumns.toNat 0 start Row.empty with
      | .error e => (d, .throw e)
      | .ok row => ({ d with results := { d.results with rows := d.results.rows ++ [row] } }, .normal)

/-- The `case 'C'` block of `_parser`. -/
def commandComplete (data : Buffer) (offset : Nat) (d : Driver) : Driver × Completion :=
  let i := indexOf data 0 offset
  let d := { d with results := { d.results with status := toString data offset i } }
  match d.callback with
  | none => (d, .throw .typeError)
  | some cb => (invoke cb none (some (.results d.results)) d, .normal)

/-- The `switch (type)` of `_parser`. -/
def dispatch (env : Env) (fuel : Nat) (data : Buffer) (type : Nat) (offset : Nat) (length : Int)
    (d : Driver) : Driver × Completion :=
  if type = 'R'.toNat then _password env offset d
  else if type = 'E'.toNat then _error fuel offset length d
  else if type = 'Z'.toNat then emitReadyForQuery d
  else if type = 'T'.toNat then _fields env offset d
  else if type = 'D'.toNat then _rows offset d
  else if type = 'C'.toNat then commandComplete data offset d
  else (d, .normal)

/-- A message handed to the `switch`: its type tag and its payload, the
`length - 4` bytes after the length field. -/
structure Frame where
  type : Nat
  payload : Buffer
  deriving DecidableEq, Repr

/-- What a run of `_parser` leaves: the driver, how the run ended, the value
of `offset` then, and the messages handed to the `switch` in order. -/
structure Parsed where
  state : Driver
  completion : Completion
  offset : Int
  dispatched : List Frame
  deriving DecidableEq, Repr

/-- The `do ... while (offset < data.length)` loop of `_parser`. -/
def parserLoop (env : Env) (data : Buffer) : Nat → Driver → Int → List Frame → Parsed
  | 0, d, offset, seen => { state := d, completion := .running, offset := offset, dispatched := seen }
  | fuel + 1, d, offset, seen =>
    let type := fromCharCode (if offset < 0 then none else data[offset.toNat]?)
    let offset := offset + 1
    match readInt32BE data offset with
    | .error e => { state := d, completion := .throw e, offset := offset, dispatched := seen }
    | .ok length =>
      let offset := offset + 4
      let seen := seen ++ [{ type := type, payload := slice data offset.toNat (offset + (length - 4)).toNat }]
      let out := dispatch env fuel data type offset.toNat length d
      match out.2 with
      | .normal =>
        let offset := offset + (length - 4)
        if offset < data.length then parserLoop env data fuel out.1 offset seen
        else { state := out.1, completion := .normal, offset := offset, dispatched := seen }
      | c => { state := out.1, completion := c, offset := offset, dispatched := seen }

/-- `_parser(data)`, the listener of the socket's "data" event. -/
def parser (env : Env) (fuel : Nat) (data : Buffer) (d : Driver) : Parsed :=
  parserLoop env data fuel { d with data := data } 0 []

/-- `close()`: `this.socket.end(buffer)` writes the buffer and ends the
socket; `this.socket` is `null` before `connect`. -/
def close (d : Driver) : Driver × Completion :=
  let buffer := alloc (1 + 4)
  let buffer := write buffer "X" 0
  match writeInt32BE buffer 4 1 with
  | .error e => (d, .throw e)
  | .ok buffer =>
    if d.socketCreated = true then ({ socketWrite buffer d with ended := true }, .normal)
    else (d, .throw .typeError)

/-! ## Wire format and scenarios used by the statements -/

/-- A backend message on the wire: the type tag, the 4-byte big-endian length
that counts itself and the payload, then the payload. -/
def frameBytes (f : Frame) : List Nat :=
  f.type :: (int32Bytes (f.payload.length + 4) ++ f.payload)

/-- A byte stream made of complete backend messages. -/
def stream (fs : List Frame) : List Nat := fs.flatMap frameBytes

/-- Calls `query(text, callback)` made one after the other by the client; a
call that throws leaves the driver as it was and the client goes on. -/
def queries : List (String × Callback) → Driver → Driver
  | [], d => d
  | tc :: rest, d => queries rest (query tc.1 tc.2 d).1

/-- The driver once the "connect" event has been handled: `new PgDriver()`,
`connect(config, cb)`, the queries the client makes before the socket is
connected (as `App.js` does), then the "connect" event without error. -/
def session (config : Config) (cb : Callback) (early : List (String × Callback)) : Driver :=
  (onConnect none (queries early (connect config cb new))).1

/-- What happens to a connected driver in the query phase: the client calls
`query`, or a ready-for-query message makes `_parser` emit "readyForQuery". -/
inductive Event where
  | query (text : String) (callback : Callback)
  | readyForQuery
  deriving DecidableEq, Repr

/-- The driver after one event. -/
def applyEvent (d : Driver) : Event → Driver
  | .query text callback => (query text callback d).1
  | .readyForQuery => (onReadyForQuery d).1

/-- The driver after a sequence of events. -/
def runEvents : Driver → List Event → Driver
  | d, [] => d
  | d, e :: es => runEvents (applyEvent d e) es

/-- What an observer of the socket and of the server sees in the query
phase: a ready-for-query being processed, or a buffer being written. -/
inductive Obs where
  | ready
  | wrote (buffer : Buffer)
  deriving DecidableEq, Repr

/-- What one event shows: the ready-for-query itself, then the buffers the
event appended to the socket's log. -/
def observe (d : Driver) (e : Event) : List Obs :=
  (match e with
    | .readyForQuery => [Obs.ready]
    | .query _ _ => [])
  ++ ((applyEvent d e).written.drop d.written.length).map Obs.wrote

/-- What a sequence of events shows, in order. -/
def observations : Driver → List Event → List Obs
  | _, [] => []
  | d, e :: es => observe d e ++ observations (applyEvent d e) es

/-- Two buffers written with no ready-for-query processed in between. -/
def adjacentWrites : List Obs → Bool
  | .wrote _ :: .wrote _ :: _ => true
  | _ :: rest => adjacentWrites rest
  | [] => false

/-- The buffers of the `query` calls that built their buffer, in call
order: the submission sequence. -/
def submitted : List (String × Callback) → List Buffer
  | [] => []
  | tc :: rest =>
    match queryBuffer tc.1 with
    | .ok buffer => buffer :: submitted rest
    | .error _ => submitted rest

/-- The `query` calls among a sequence of events. -/
def calls : List Event → List (String × Callback)
  | [] => []
  | .query text callback :: es => (text, callback) :: calls es
  | .readyForQuery :: es => calls es

/-- A sample environment: two entries of the type table, a constant digest. -/
def demoEnv : Env :=
  { TYPES := fun oid => if oid = 23 then some "int4" else if oid = 25 then some "text" else none,
    md5hex := fun _ => "d41d8cd98f00b204e9800998ecf8427e" }

/-- The configuration of `App.js`. -/
def demoConfig : Config :=
  { host := "localhost", port := 5432, user := "postgres", password := "postgres",
    database := "postgres" }

/-- The server's answer to "select 1": a row description with the one field
"?column?" of type OID 23, one data row with the value "1", the command tag
"SELECT 1", ready-for-query. -/
def select1Response : List Nat :=
  stream [
    { type := 'T'.toNat,
      payload := int16Bytes 1 ++ utf8Encode "?column?" ++ [0] ++ int32Bytes 0 ++ int16Bytes 0
        ++ int32Bytes 23 ++ int16Bytes 4 ++ int32Bytes (-1) ++ int16Bytes 0 },
    { type := 'D'.toNat, payload := int16Bytes 1 ++ int32Bytes 1 ++ utf8Encode "1" },
    { type := 'C'.toNat, payload := utf8Encode "SELECT 1" ++ [0] },
    { type := 'Z'.toNat, payload := [73] } ]

/-- Every character of the string is ASCII. -/
def isAscii (s : String) : Prop := ∀ c ∈ s.data, c.toNat < 128

/-- One field entry of a row description as `_fields` walks it: the name
(without its zero terminator), the 4 + 2 bytes skipped before the type OID,
the OID, and the bytes between the OID and the next entry. -/
structure FieldEntry where
  name : List Nat
  skipped : List Nat
  oid : Int
  rest : List Nat
  deriving DecidableEq, Repr

/-- The bytes of a field entry. -/
def fieldBytes (e : FieldEntry) : List Nat :=
  e.name ++ (0 :: (e.skipped ++ (int32Bytes e.oid ++ e.rest)))

/-- The bytes of one column of a data row: the length -1 alone for a null,
else the length and the value bytes. -/
def columnBytes : Option (List Nat) → List Nat
  | none => int32Bytes (-1)
  | some value => int32Bytes value.length ++ value

/-- The assignments `row[fields[i]] = value` for the columns from index `i`
on, in column order. -/
def fillRow (fields : List String) : List (Option (List Nat)) → Nat → Row → Row
  | [], _, row => row
  | c :: cs, i, row => fillRow fields cs (i + 1) (row.set (propertyKey fields[i]?) (c.map utf8Decode))

/-- The bytes of the fields of an error message: for each field its type
code, its string and a zero terminator. -/
def errorFieldBytes (fs : List (Nat × List Nat)) : List Nat :=
  fs.flatMap (fun f => f.1 :: (f.2 ++ [0]))

/-- The mapping an error message denotes: `code`, `message`, `severity` for
the field codes C, M, S (a later field of the same code wins), nothing for
the other codes. -/
def errorOf : List (Nat × List Nat) → ErrObj → ErrObj
  | [], err => err
  | f :: fs, err =>
    errorOf fs (match errorFields f.1 with
      | some setter => setter err (utf8Decode f.2)
      | none => err)

/-- The object `{}` of `_error`. -/
def ErrObj.empty : ErrObj := { code := none, message := none, severity := none }

/-- The "data" events of consecutive chunks, one `_parser` call each.  An
exception thrown by the listener is not caught by the driver, so the run
stops at the first chunk whose parse does not complete normally.  The
messages handed to the `switch` are collected over the chunks. -/
def deliver (env : Env) (fuel : Nat) : List Buffer → Driver → Parsed
  | [], d => { state := d, completion := .normal, offset := 0, dispatched := [] }
  | chunk :: rest, d =>
    let out := parser env fuel chunk d
    match out.completion with
    | .normal =>
      let next := deliver env fuel rest out.state
      { next with dispatched := out.dispatched ++ next.dispatched }
    | _ => out

/-- A frame that can stand on the wire: a one-byte tag and a length that fits
the signed 32-bit length field. -/
def Frame.valid (f : Frame) : Prop := f.type < 256 ∧ f.payload.length + 4 ≤ 2147483647

/-- The buffers waiting in `queryQueue`, in queue order. -/
def queueBuffers (d : Driver) : List Buffer := d.queryQueue.filterMap (fun e => e.buffer)

/-- A row description of two fields both named "a" (type OID 25), then a
data row whose first column is null and whose second column is "x". -/
def sameNameDelivery : List Nat :=
  stream [
    { type := 'T'.toNat,
      payload := int16Bytes 2
        ++ fieldBytes { name := utf8Encode "a", skipped := [0, 0, 0, 0, 0, 1], oid := 25,
                        rest := [255, 255, 255, 255, 255, 255, 0, 0] }
        ++ fieldBytes { name := utf8Encode "a", skipped := [0, 0, 0, 0, 0, 2], oid := 25,
                        rest := [255, 255, 255, 255, 255, 255, 0, 0] } },
    { type := 'D'.toNat,
      payload := int16Bytes 2 ++ columnBytes none ++ columnBytes (some (utf8Encode "x")) } ]

/-- An error or notice message: tag 'E', the fields, a closing zero byte. -/
def errorFrame (fs : List (Nat × List Nat)) : Frame :=
  { type := 'E'.toNat, payload := errorFieldBytes fs ++ [0] }

/-- Well-formed fields of an error message: the type code is a byte other
than the digit '0' (which the protocol does not use and `_error` treats as
a terminator), the string has no zero byte. -/
def wellFormedFields (fs : List (Nat × List Nat)) : Prop :=
  ∀ f ∈ fs, f.1 ≠ 48 ∧ f.1 < 256 ∧ 0 ∉ f.2

/-- The server's refusal of a password: severity FATAL, code 28P01. -/
def fatalAuthError : List Nat :=
  frameBytes (errorFrame [('S'.toNat, utf8Encode "FATAL"), ('C'.toNat, utf8Encode "28P01"),
    ('M'.toNat, utf8Encode "password authentication failed")])

/-- A syntax error reported by the server: severity ERROR, code 42601. -/
def syntaxError : Frame :=
  errorFrame [('S'.toNat, utf8Encode "ERROR"), ('C'.toNat, utf8Encode "42601"),
    ('M'.toNat, utf8Encode "syntax error")]

/-- A row description and a data row followed by `syntaxError`: an error
that arrives after the first rows of a result. -/
def errorAfterRows : List Nat :=
  stream [
    { type := 'T'.toNat,
      payload := int16Bytes 1
        ++ fieldBytes { name := utf8Encode "?column?", skipped := [0, 0, 0, 0, 0, 0], oid := 23,
                        rest := [0, 4, 255, 255, 255, 255, 0, 0] } },
    { type := 'D'.toNat, payload := int16Bytes 1 ++ columnBytes (some (utf8Encode "1")) },
    syntaxError ]

/-- A command-complete message: tag 'C', the status string, a zero byte. -/
def commandFrame (status : List Nat) : Frame :=
  { type := 'C'.toNat, payload := status ++ [0] }

/-- A ready-for-query message: tag 'Z' and the transaction status byte. -/
def readyFrame (status : Nat) : Frame := { type := 'Z'.toNat, payload := [status] }

/-- The driver with the query "select 1" in flight: connected, first
ready-for-query received, then `query("select 1", 2)` written at once. -/
def inFlight : Driver :=
  runEvents (session demoConfig 1 []) [.readyForQuery, .query "select 1" 2]

/-- How many times a continuation has been called. -/
def timesInvoked (cb : Callback) (d : Driver) : Nat :=
  (d.invoked.filter (fun i => i.callback = cb)).length

/-- A row description laid out as the spec words it: two fields "a" (type
OID 23) and "b" (type OID 25), each with 4 bytes of type size, 4 bytes of
type modifier and 2 bytes of format code after the OID. -/
def specLayoutDescription : List Nat :=
  stream [
    { type := 'T'.toNat,
      payload := int16Bytes 2
        ++ fieldBytes { name := utf8Encode "a", skipped := [0, 0, 64, 6, 0, 1], oid := 23,
                        rest := int32Bytes 4 ++ int32Bytes (-1) ++ int16Bytes 0 }
        ++ fieldBytes { name := utf8Encode "b", skipped := [0, 0, 64, 6, 0, 2], oid := 25,
                        rest := int32Bytes (-1) ++ int32Bytes (-1) ++ int16Bytes 0 } } ]

/-- A second row description, naming the one field "b" of type OID 25. -/
def secondDescription : List Nat :=
  stream [
    { type := 'T'.toNat,
      payload := int16Bytes 1
        ++ fieldBytes { name := utf8Encode "b", skipped := [0, 0, 0, 0, 0, 0], oid := 25,
                        rest := [255, 255, 255, 255, 255, 255, 0, 0] } } ]

/-- A data row with the column count 0. -/
def emptyDataRow : List Nat := stream [{ type := 'D'.toNat, payload := int16Bytes 0 }]

/-- A row description of two fields both named "?column?" (as "select 1, 2"
gives), then the data row ("1", "2"). -/
def twoUnnamedColumns : List Nat :=
  stream [
    { type := 'T'.toNat,
      payload := int16Bytes 2
        ++ fieldBytes { name := utf8Encode "?column?", skipped := [0, 0, 0, 0, 0, 0], oid := 23,
                        rest := [0, 4, 255, 255, 255, 255, 0, 0] }
        ++ fieldBytes { name := utf8Encode "?column?", skipped := [0, 0, 0, 0, 0, 0], oid := 23,
                        rest := [0, 4, 255, 255, 255, 255, 0, 0] } },
    { type := 'D'.toNat,
      payload := int16Bytes 2 ++ columnBytes (some (utf8Encode "1"))
        ++ columnBytes (some (utf8Encode "2")) } ]

/-- A tag for which the `switch` of `_parser` has no case. -/
def unhandled (type : Nat) : Prop :=
  type ≠ 82 ∧ type ≠ 69 ∧ type ≠ 90 ∧ type ≠ 84 ∧ type ≠ 68 ∧ type ≠ 67

/-- A complete error message whose only field string is not closed by a zero
byte: tag 'E', length field 6, payload 'S' 'A'. -/
def unterminatedError : Frame := { type := 'E'.toNat, payload := [83, 65] }

/-- The server's answer to a second query, "select 'x' as b": a row
description with the one field "b" of type OID 25, one data row with the
value "x", the command tag "SELECT 1", ready-for-query. -/
def secondResponse : List Nat :=
  stream [
    { type := 'T'.toNat,
      payload := int16Bytes 1
        ++ fieldBytes { name := utf8Encode "b", skipped := [0, 0, 0, 0, 0, 0], oid := 25,
                        rest := [255, 255, 255, 255, 255, 255, 0, 0] } },
    { type := 'D'.toNat, payload := int16Bytes 1 ++ columnBytes (some (utf8Encode "x")) },
    { type := 'C'.toNat, payload := utf8Encode "SELECT 1" ++ [0] },
    { type := 'Z'.toNat, payload := [73] } ]

/-- The driver with a second query in flight: the answer to "select 1" has
been parsed on `inFlight`, then `query("select 'x' as b", 3)` is written at
once. -/
def secondInFlight : Driver :=
  (query "select 'x' as b" 3 (parser demoEnv 10 select1Response inFlight).state).1

/-- The handler calls that the loop of `_parser` makes for the complete
messages `fs` of `data`, the next of which starts at `offset`, run one after
the other, each on the driver the one before has left: `true` when every
call returns normally.  A call gets the fuel of the loop's turn. -/
def handlersReturn (env : Env) (data : Buffer) : Nat → Nat → List Frame → Driver → Bool
  | _, _, [], _ => true
  | 0, _, _ :: _, _ => false
  | fuel + 1, offset, f :: fs, d =>
    decide ((dispatch env fuel data f.type (offset + 5) ((f.payload.length : Int) + 4) d).2
        = .normal)
      && handlersReturn env data fuel (offset + 5 + f.payload.length) fs
          (dispatch env fuel data f.type (offset + 5) ((f.payload.length : Int) + 4) d).1

/-! ## Lemmas on the buffer primitives -/

theorem getD_append_add (pre l : List Nat) (k : Nat) :
    (pre ++ l).getD (pre.length + k) 0 = l.getD k 0 := by
  simp [List.getD_eq_getElem?_getD, List.getElem?_append_right]

theorem int32Bytes_length (v : Int) : (int32Bytes v).length = 4 := by
  simp [int32Bytes]

theorem int16Bytes_length (v : Int) : (int16Bytes v).length = 2 := by
  simp [int16Bytes]

theorem readInt32BE_at (data pre post : List Nat) (v : Int)
    (hv : -2147483648 ≤ v ∧ v ≤ 2147483647) (h : data = pre ++ (int32Bytes v ++ post)) :
    readInt32BE data pre.length = .ok v := by
  subst h
  have h0 := getD_append_add pre (int32Bytes v ++ post) 0
  have h1 := getD_append_add pre (int32Bytes v ++ post) 1
  have h2 := getD_append_add pre (int32Bytes v ++ post) 2
  have h3 := getD_append_add pre (int32Bytes v ++ post) 3
  simp only [Nat.add_zero] at h0
  unfold readInt32BE
  simp only [Int.toNat_ofNat, h0, h1, h2, h3]
  simp only [int32Bytes, List.cons_append, List.nil_append, List.getD_cons_zero, List.getD_cons_succ,
    List.length_append, List.length_cons]
  rw [if_neg (by push_cast; omega)]
  congr 1
  omega

theorem readInt16BE_at (data pre post : List Nat) (v : Int)
    (hv : -32768 ≤ v ∧ v ≤ 32767) (h : data = pre ++ (int16Bytes v ++ post)) :
    readInt16BE data pre.length = .ok v := by
  subst h
  have h0 := getD_append_add pre (int16Bytes v ++ post) 0
  have h1 := getD_append_add pre (int16Bytes v ++ post) 1
  simp only [Nat.add_zero] at h0
  unfold readInt16BE
  simp only [Int.toNat_ofNat, h0, h1]
  simp only [int16Bytes, List.cons_append, List.nil_append, List.getD_cons_zero, List.getD_cons_succ,
    List.length_append, List.length_cons]
  rw [if_neg (by push_cast; omega)]
  congr 1
  omega

theorem indexOfFrom_zero (s post : List Nat) (i : Nat) (hs : 0 ∉ s) :
    indexOfFrom 0 (s ++ 0 :: post) i = ((i + s.length : Nat) : Int) := by
  induction s generalizing i with
  | nil => simp [indexOfFrom]
  | cons b bs ih =>
    have hb : b ≠ 0 := fun h => hs (by simp [h])
    have hbs : 0 ∉ bs := fun h => hs (by simp [h])
    show indexOfFrom 0 (b :: (bs ++ 0 :: post)) i = _
    rw [indexOfFrom, if_neg hb, ih (i + 1) hbs, List.length_cons]
    congr 1
    omega

theorem indexOf_at (data pre s post : List Nat) (hs : 0 ∉ s)
    (h : data = pre ++ (s ++ 0 :: post)) :
    indexOf data 0 pre.length = ((pre.length + s.length : Nat) : Int) := by
  subst h
  simp [indexOf, indexOfFrom_zero _ _ _ hs]

theorem slice_at (data pre s post : List Nat) (h : data = pre ++ (s ++ post)) :
    slice data pre.length (pre.length + s.length) = s := by
  subst h
  simp [slice]

theorem utf8Decode_nil : utf8Decode [] = "" := rfl

theorem toString_at (data pre s post : List Nat) (h : data = pre ++ (s ++ post)) :
    toString data (pre.length : Nat) ((pre.length + s.length : Nat) : Int) = utf8Decode s := by
  have hd : data.length = pre.length + (s.length + post.length) := by subst h; simp
  have e1 : (if ((pre.length : Nat) : Int) ≤ 0 then (0 : Int) else ((pre.length : Nat) : Int))
      = ((pre.length : Nat) : Int) := by
    split <;> omega
  have e2 : (if ((data.length : Nat) : Int) < ((pre.length + s.length : Nat) : Int)
      then ((data.length : Nat) : Int) else ((pre.length + s.length : Nat) : Int))
      = ((pre.length + s.length : Nat) : Int) := by
    rw [if_neg (by omega)]
  unfold toString
  simp only [e1, e2]
  split
  · rename_i hc
    have : s = [] := List.length_eq_zero.mp (by omega)
    subst this; rfl
  · split
    · rename_i hc
      have : s = [] := List.length_eq_zero.mp (by omega)
      subst this; rfl
    · simp only [Int.toNat_ofNat]
      rw [slice_at data pre s post h]

theorem utf8EncodeChar_ascii (c : Char) (h : c.toNat < 128) : utf8EncodeChar c = [c.toNat] := by
  simp [utf8EncodeChar, h]

theorem fitChars_ascii (cs : List Char) (room : Nat) (h : ∀ c ∈ cs, c.toNat < 128)
    (hroom : cs.length ≤ room) : fitChars cs room = cs.flatMap utf8EncodeChar := by
  induction cs generalizing room with
  | nil => rfl
  | cons c cs ih =>
    have hc : c.toNat < 128 := h c (by simp)
    have hcs : ∀ x ∈ cs, x.toNat < 128 := fun x hx => h x (by simp [hx])
    simp only [List.length_cons] at hroom
    simp only [fitChars, utf8EncodeChar_ascii c hc, List.length_singleton, List.flatMap_cons]
    rw [if_pos (by omega), ih (room - 1) hcs (by omega)]

theorem flatMap_utf8_length_ascii (cs : List Char) (h : ∀ c ∈ cs, c.toNat < 128) :
    (cs.flatMap utf8EncodeChar).length = cs.length := by
  induction cs with
  | nil => rfl
  | cons c cs ih =>
    have hc : c.toNat < 128 := h c (by simp)
    have hcs : ∀ x ∈ cs, x.toNat < 128 := fun x hx => h x (by simp [hx])
    simp [List.flatMap_cons, utf8EncodeChar_ascii c hc, ih hcs]

theorem utf8Encode_length_ascii (s : String) (h : isAscii s) : (utf8Encode s).length = s.length :=
  flatMap_utf8_length_ascii s.data h

theorem jsLength_ascii (s : String) (h : isAscii s) : jsLength s = s.length := by
  unfold jsLength
  have : ∀ cs : List Char, (∀ c ∈ cs, c.toNat < 128) →
      (cs.map (fun c => if c.toNat < 65536 then 1 else 2)).sum = cs.length := by
    intro cs
    induction cs with
    | nil => intro _; rfl
    | cons c cs ih =>
      intro hh
      have hc : c.toNat < 128 := hh c (by simp)
      have hcs : ∀ x ∈ cs, x.toNat < 128 := fun x hx => hh x (by simp [hx])
      simp only [List.map_cons, List.sum_cons, List.length_cons, ih hcs]
      rw [if_pos (by omega)]
      omega
  exact this s.data h

/-- Writing an ASCII string into a buffer that has room for it. -/
theorem write_ascii (buf : Buffer) (s : String) (offset : Nat) (h : isAscii s)
    (hroom : offset + s.length ≤ buf.length) :
    write buf s offset = buf.take offset ++ utf8Encode s ++ buf.drop (offset + s.length) := by
  unfold write
  have hl : s.data.length = s.length := rfl
  rw [fitChars_ascii s.data _ h (by omega)]
  show _ ++ utf8Encode s ++ List.drop (offset + (utf8Encode s).length) buf = _
  rw [utf8Encode_length_ascii s h]

/-! ## The framing loop -/

theorem frameBytes_length (f : Frame) : (frameBytes f).length = 5 + f.payload.length := by
  simp [frameBytes, int32Bytes_length]
  omega

/-- One turn of the `do ... while` loop on a complete message. -/
theorem parserLoop_step (env : Env) (data : Buffer) (fuel : Nat) (d : Driver) (seen : List Frame)
    (pre post : List Nat) (f : Frame)
    (hdata : data = pre ++ (frameBytes f ++ post))
    (hlen : f.payload.length + 4 ≤ 2147483647) (htype : f.type < 65536) :
    parserLoop env data (fuel + 1) d (pre.length : Nat) seen =
      match (dispatch env fuel data f.type (pre.length + 5) ((f.payload.length : Int) + 4) d).2 with
      | .normal =>
        if post = [] then
          { state := (dispatch env fuel data f.type (pre.length + 5) ((f.payload.length : Int) + 4) d).1,
            completion := .normal, offset := (data.length : Nat), dispatched := seen ++ [f] }
        else parserLoop env data fuel
          (dispatch env fuel data f.type (pre.length + 5) ((f.payload.length : Int) + 4) d).1
          ((pre ++ frameBytes f).length : Nat) (seen ++ [f])
      | c =>
        { state := (dispatch env fuel data f.type (pre.length + 5) ((f.payload.length : Int) + 4) d).1,
          completion := c, offset := ((pre.length + 5 : Nat) : Int), dispatched := seen ++ [f] } := by
  have hdl : data.length = pre.length + (5 + f.payload.length + post.length) := by
    subst hdata; simp [frameBytes_length]
  have htag : (if ((pre.length : Nat) : Int) < 0 then none else data[((pre.length : Nat) : Int).toNat]?)
      = some f.type := by
    rw [if_neg (by omega)]
    subst hdata
    rw [Int.toNat_ofNat, List.getElem?_append_right (le_refl _)]
    simp [frameBytes]
  have hread : readInt32BE data (((pre.length : Nat) : Int) + 1) = .ok ((f.payload.length : Int) + 4) := by
    have := readInt32BE_at data (pre ++ [f.type]) (f.payload ++ post) ((f.payload.length : Int) + 4)
      (by omega) (by subst hdata; simp [frameBytes])
    simpa using this
  have hslice : slice data (pre.length + 5)
      (((pre.length : Nat) : Int) + 1 + 4 + ((f.payload.length : Int) + 4 - 4)).toNat = f.payload := by
    have := slice_at data (pre ++ f.type :: int32Bytes ((f.payload.length : Int) + 4)) f.payload post
      (by subst hdata; simp [frameBytes])
    have e1 : pre.length + 5
        = (pre ++ f.type :: int32Bytes ((f.payload.length : Int) + 4)).length := by
      simp [int32Bytes_length]
    have e2 : (((pre.length : Nat) : Int) + 1 + 4 + ((f.payload.length : Int) + 4 - 4)).toNat
        = (pre ++ f.type :: int32Bytes ((f.payload.length : Int) + 4)).length + f.payload.length := by
      simp [int32Bytes_length]
      omega
    rw [e1, e2]; exact this
  have hoff : (((pre.length : Nat) : Int) + 1 + 4).toNat = pre.length + 5 := by omega
  have hty : fromCharCode (some f.type) = f.type := by
    simp [fromCharCode, Nat.mod_eq_of_lt htype]
  rw [parserLoop]
  simp only [htag, hread, hslice, hoff, hty]
  cases hc : (dispatch env fuel data f.type (pre.length + 5) ((f.payload.length : Int) + 4) d).2 with
  | normal =>
    simp only []
    by_cases hp : post = []
    · subst hp
      rw [if_neg (by simp at hdl; omega), if_pos rfl]
      simp at hdl
      congr 1
      omega
    · have : 0 < post.length := List.length_pos.mpr hp
      rw [if_pos (by omega), if_neg hp]
      congr 1
      simp [frameBytes_length]; omega
  | throw e =>
    simp only []
    congr 1
  | running =>
    simp only []
    congr 1

/-! ## The handlers on well-formed payloads -/

theorem fieldBytes_length (e : FieldEntry) :
    (fieldBytes e).length = e.name.length + 1 + e.skipped.length + 4 + e.rest.length := by
  simp [fieldBytes, int32Bytes_length]
  omega

theorem _fieldsLoop_zero (env : Env) (data : Buffer) (start : Nat) (r : Results) :
    _fieldsLoop env data 0 start r = (r, .normal) := rfl

theorem _fieldsLoop_succ (env : Env) (data : Buffer) (n start : Nat) (r : Results) :
    _fieldsLoop env data (n + 1) start r =
      match readInt32BE data (((indexOf data 0 start + 1).toNat + (4 + 2) : Nat)) with
      | .error e => ({ r with fields := r.fields ++ [toString data start (indexOf data 0 start)] }, .throw e)
      | .ok oid_type =>
        _fieldsLoop env data n ((indexOf data 0 start + 1).toNat + (4 + 2) + (4 + 2 + 4 + 2))
          { r with fields := r.fields ++ [toString data start (indexOf data 0 start)],
                   types := r.types ++ [env.TYPES oid_type] } := rfl

/-- The loop of `_fields` on entries laid out as the code walks them. -/
theorem _fieldsLoop_spec (env : Env) (data : Buffer) (es : List FieldEntry) (pre post : List Nat)
    (r : Results)
    (hes : ∀ e ∈ es, 0 ∉ e.name ∧ e.skipped.length = 6 ∧ e.rest.length = 8
      ∧ -2147483648 ≤ e.oid ∧ e.oid ≤ 2147483647)
    (hdata : data = pre ++ (es.flatMap fieldBytes ++ post)) :
    _fieldsLoop env data es.length pre.length r
      = ({ r with fields := r.fields ++ es.map (fun e => utf8Decode e.name),
                  types := r.types ++ es.map (fun e => env.TYPES e.oid) }, .normal) := by
  induction es generalizing pre r with
  | nil => simp [_fieldsLoop_zero]
  | cons e es ih =>
    obtain ⟨hname, hsk, hrest, hlo, hhi⟩ := hes e (by simp)
    have hes2 : ∀ x ∈ es, 0 ∉ x.name ∧ x.skipped.length = 6 ∧ x.rest.length = 8
        ∧ -2147483648 ≤ x.oid ∧ x.oid ≤ 2147483647 := fun x hx => hes x (by simp [hx])
    have hidx : indexOf data 0 pre.length = ((pre.length + e.name.length : Nat) : Int) :=
      indexOf_at data pre e.name
        (e.skipped ++ (int32Bytes e.oid ++ (e.rest ++ (es.flatMap fieldBytes ++ post)))) hname
        (by subst hdata; simp [fieldBytes])
    have hstr : toString data (pre.length : Nat) ((pre.length + e.name.length : Nat) : Int)
        = utf8Decode e.name :=
      toString_at data pre e.name
        (0 :: (e.skipped ++ (int32Bytes e.oid ++ (e.rest ++ (es.flatMap fieldBytes ++ post)))))
        (by subst hdata; simp [fieldBytes])
    have hoidpos : (((pre.length + e.name.length : Nat) : Int) + 1).toNat + (4 + 2)
        = (pre ++ (e.name ++ (0 :: e.skipped))).length := by
      simp [hsk]; omega
    have hread : readInt32BE data ((pre ++ (e.name ++ (0 :: e.skipped))).length : Nat) = .ok e.oid :=
      readInt32BE_at data (pre ++ (e.name ++ (0 :: e.skipped)))
        (e.rest ++ (es.flatMap fieldBytes ++ post)) e.oid ⟨hlo, hhi⟩
        (by subst hdata; simp [fieldBytes])
    have hnext : (pre ++ (e.name ++ (0 :: e.skipped))).length + (4 + 2 + 4 + 2)
        = (pre ++ fieldBytes e).length := by
      simp [fieldBytes_length, hsk, hrest]; omega
    rw [List.length_cons, _fieldsLoop_succ, hidx, hstr, hoidpos, hread]
    simp only []
    rw [hnext, ih (pre ++ fieldBytes e) _ hes2 (by subst hdata; simp)]
    simp

/-- The loop of `_rows` on columns laid out as length and value. -/
theorem _rowsLoop_spec (data : Buffer) (fields : List String) (cols : List (Option (List Nat)))
    (pre post : List Nat) (i : Nat) (row : Row)
    (hcols : ∀ v, some v ∈ cols → v.length ≤ 2147483647)
    (hdata : data = pre ++ (cols.flatMap columnBytes ++ post)) :
    _rowsLoop data fields cols.length i (pre.length : Nat) row = .ok (fillRow fields cols i row) := by
  induction cols generalizing pre i row with
  | nil => simp [_rowsLoop, fillRow]
  | cons c cs ih =>
    have hcs : ∀ v, some v ∈ cs → v.length ≤ 2147483647 := fun v hv => hcols v (by simp [hv])
    cases c with
    | none =>
      have hread : readInt32BE data (pre.length : Nat) = .ok (-1) :=
        readInt32BE_at data pre (cs.flatMap columnBytes ++ post) (-1) (by omega)
          (by subst hdata; simp [columnBytes])
      have hnext : ((pre.length : Nat) : Int) + 4 = ((pre ++ int32Bytes (-1)).length : Nat) := by
        simp [int32Bytes_length]
      simp only [List.length_cons, _rowsLoop, hread, if_true, fillRow, Option.map_none', hnext]
      exact ih (pre ++ int32Bytes (-1)) (i + 1) _ hcs (by subst hdata; simp [columnBytes])
    | some v =>
      have hv : v.length ≤ 2147483647 := hcols v (by simp)
      have hread : readInt32BE data (pre.length : Nat) = .ok (v.length : Int) :=
        readInt32BE_at data pre (v ++ (cs.flatMap columnBytes ++ post)) v.length (by omega)
          (by subst hdata; simp [columnBytes])
      have hne : ¬ ((v.length : Int) = -1) := by omega
      have hstart : ((pre.length : Nat) : Int) + 4 = ((pre ++ int32Bytes v.length).length : Nat) := by
        simp [int32Bytes_length]
      have hstop : (((pre ++ int32Bytes v.length).length : Nat) : Int) + (v.length : Int)
          = (((pre ++ int32Bytes v.length).length + v.length : Nat) : Int) := by
        push_cast; rfl
      have hstr : toString data ((pre ++ int32Bytes v.length).length : Nat)
          (((pre ++ int32Bytes v.length).length + v.length : Nat) : Int) = utf8Decode v :=
        toString_at data (pre ++ int32Bytes v.length) v (cs.flatMap columnBytes ++ post)
          (by subst hdata; simp [columnBytes])
      have hnext : (((pre ++ int32Bytes v.length).length + v.length : Nat) : Int)
          = ((pre ++ columnBytes (some v)).length : Nat) := by
        simp [columnBytes]; omega
      have hstr2 := hstr
      rw [hnext] at hstr2
      simp only [List.length_cons, _rowsLoop, hread, if_neg hne, fillRow, Option.map_some', hstart,
        hstop, hnext, hstr2]
      exact ih (pre ++ columnBytes (some v)) (i + 1) _ hcs (by subst hdata; simp)

theorem errorFieldBytes_cons (f : Nat × List Nat) (fs : List (Nat × List Nat)) :
    errorFieldBytes (f :: fs) = f.1 :: (f.2 ++ (0 :: errorFieldBytes fs)) := by
  simp [errorFieldBytes]

/-- The loop of `_error` on well-formed fields, when `length` is the index
at which they end. -/
theorem _errorLoop_spec (data : Buffer) (fs : List (Nat × List Nat)) (pre post : List Nat)
    (err : ErrObj) (k : Nat)
    (hfs : ∀ f ∈ fs, f.1 ≠ 48 ∧ f.1 < 65536 ∧ 0 ∉ f.2)
    (hdata : data = pre ++ (errorFieldBytes fs ++ post)) :
    _errorLoop data ((pre.length + (errorFieldBytes fs).length : Nat) : Int) (fs.length + 1 + k)
      pre.length err = some (errorOf fs err) := by
  induction fs generalizing pre err with
  | nil =>
    have hfuel : ([] : List (Nat × List Nat)).length + 1 + k = k + 1 := by simp; omega
    rw [hfuel, _errorLoop, if_neg (by simp [errorFieldBytes])]
    rfl
  | cons f fs ih =>
    obtain ⟨h48, hlt, hz⟩ := hfs f (by simp)
    have hfs2 : ∀ x ∈ fs, x.1 ≠ 48 ∧ x.1 < 65536 ∧ 0 ∉ x.2 := fun x hx => hfs x (by simp [hx])
    have hd2 : data = pre ++ (f.1 :: (f.2 ++ (0 :: (errorFieldBytes fs ++ post)))) := by
      subst hdata; simp [errorFieldBytes_cons]
    have hlen : (errorFieldBytes (f :: fs)).length = 1 + f.2.length + 1 + (errorFieldBytes fs).length := by
      simp [errorFieldBytes_cons]; omega
    have hcond : ((pre.length : Nat) : Int)
        < ((pre.length + (errorFieldBytes (f :: fs)).length : Nat) : Int) := by
      rw [hlen]; omega
    have htag : data[pre.length]? = some f.1 := by
      rw [hd2, List.getElem?_append_right (le_refl _)]; simp
    have hty : fromCharCode (some f.1) = f.1 := by
      simp [fromCharCode, Nat.mod_eq_of_lt hlt]
    have hne : ¬ (f.1 = '0'.toNat) := h48
    have hidx : indexOf data 0 (pre.length + 1) = ((pre.length + 1 + f.2.length : Nat) : Int) := by
      have := indexOf_at data (pre ++ [f.1]) f.2 (errorFieldBytes fs ++ post) hz
        (by rw [hd2]; simp)
      simpa using this
    have hstr : toString data ((pre.length + 1 : Nat) : Int) ((pre.length + 1 + f.2.length : Nat) : Int)
        = utf8Decode f.2 := by
      have := toString_at data (pre ++ [f.1]) f.2 (0 :: (errorFieldBytes fs ++ post))
        (by rw [hd2]; simp)
      simpa using this
    have hnext : (((pre.length + 1 + f.2.length : Nat) : Int) + 1).toNat
        = (pre ++ (f.1 :: (f.2 ++ [0]))).length := by
      simp; omega
    have hL : ((pre.length + (errorFieldBytes (f :: fs)).length : Nat) : Int)
        = (((pre ++ (f.1 :: (f.2 ++ [0]))).length + (errorFieldBytes fs).length : Nat) : Int) := by
      rw [hlen]; simp; omega
    have hfuel : (f :: fs).length + 1 + k = (fs.length + 1 + k) + 1 := by
      simp; omega
    rw [hfuel, _errorLoop, if_pos hcond]
    simp only [htag, hty, if_neg hne, hidx, hstr, hnext]
    rw [hL, ih (pre ++ (f.1 :: (f.2 ++ [0]))) _ hfs2 (by rw [hd2]; simp)]
    rfl

/-- The `case 'C'` block on a zero-terminated status. -/
theorem commandComplete_at (data : Buffer) (d : Driver) (pre st post : List Nat)
    (active : Option Callback) (hactive : d.callback = active)
    (hst : 0 ∉ st) (hdata : data = pre ++ (st ++ (0 :: post))) :
    commandComplete data pre.length d =
      match active with
      | none => ({ d with results := { d.results with status := utf8Decode st } }, .throw .typeError)
      | some cb =>
        (invoke cb none (some (.results { d.results with status := utf8Decode st }))
          { d with results := { d.results with status := utf8Decode st } }, .normal) := by
  have hidx := indexOf_at data pre st post hst hdata
  have hstr := toString_at data pre st (0 :: post) hdata
  unfold commandComplete
  simp only [hidx, hstr]
  rw [show ({ d with results := { d.results with status := utf8Decode st } } : Driver).callback
    = active from hactive]

theorem stream_cons (f : Frame) (fs : List Frame) : stream (f :: fs) = frameBytes f ++ stream fs := by
  simp [stream]

theorem stream_append (fs gs : List Frame) : stream (fs ++ gs) = stream fs ++ stream gs := by
  simp [stream]

theorem stream_eq_nil (fs : List Frame) : stream fs = [] ↔ fs = [] := by
  cases fs with
  | nil => simp [stream]
  | cons f fs =>
    simp only [stream_cons, List.append_eq_nil, reduceCtorEq, iff_false, not_and]
    intro h
    have := frameBytes_length f
    rw [h] at this
    simp at this
    omega

/-- A turn of the loop whose handler returns normally, with more to parse. -/
theorem parserLoop_step_normal (env : Env) (data : Buffer) (fuel : Nat) (d d2 : Driver)
    (seen : List Frame) (pre post : List Nat) (f : Frame)
    (hdata : data = pre ++ (frameBytes f ++ post))
    (hlen : f.payload.length + 4 ≤ 2147483647) (htype : f.type < 65536)
    (hdisp : dispatch env fuel data f.type (pre.length + 5) ((f.payload.length : Int) + 4) d
      = (d2, .normal))
    (hpost : post ≠ []) :
    parserLoop env data (fuel + 1) d (pre.length : Nat) seen
      = parserLoop env data fuel d2 ((pre ++ frameBytes f).length : Nat) (seen ++ [f]) := by
  rw [parserLoop_step env data fuel d seen pre post f hdata hlen htype, hdisp]
  simp only [if_neg hpost]

/-- The last turn of the loop, whose handler returns normally. -/
theorem parserLoop_step_last (env : Env) (data : Buffer) (fuel : Nat) (d d2 : Driver)
    (seen : List Frame) (pre : List Nat) (f : Frame)
    (hdata : data = pre ++ (frameBytes f ++ []))
    (hlen : f.payload.length + 4 ≤ 2147483647) (htype : f.type < 65536)
    (hdisp : dispatch env fuel data f.type (pre.length + 5) ((f.payload.length : Int) + 4) d
      = (d2, .normal)) :
    parserLoop env data (fuel + 1) d (pre.length : Nat) seen
      = { state := d2, completion := .normal, offset := (data.length : Nat),
          dispatched := seen ++ [f] } := by
  rw [parserLoop_step env data fuel d seen pre [] f hdata hlen htype, hdisp]
  simp only [if_true]

/-- A turn of the loop whose handler throws or keeps running. -/
theorem parserLoop_step_abort (env : Env) (data : Buffer) (fuel : Nat) (d d2 : Driver)
    (c : Completion) (seen : List Frame) (pre post : List Nat) (f : Frame)
    (hdata : data = pre ++ (frameBytes f ++ post))
    (hlen : f.payload.length + 4 ≤ 2147483647) (htype : f.type < 65536)
    (hdisp : dispatch env fuel data f.type (pre.length + 5) ((f.payload.length : Int) + 4) d
      = (d2, c))
    (hc : c ≠ .normal) :
    parserLoop env data (fuel + 1) d (pre.length : Nat) seen
      = { state := d2, completion := c, offset := ((pre.length + 5 : Nat) : Int),
          dispatched := seen ++ [f] } := by
  rw [parserLoop_step env data fuel d seen pre post f hdata hlen htype, hdisp]
  cases c with
  | normal => exact absurd rfl hc
  | throw e => rfl
  | running => rfl

/-- A run of the loop over complete messages that completes normally has
handed every message to the `switch`, in order, and ends at the end of the
delivery. -/
theorem parserLoop_normal (env : Env) (data : Buffer) (fs : List Frame) :
    ∀ (fuel : Nat) (d : Driver) (pre : List Nat) (seen : List Frame),
      fs ≠ [] → (∀ f ∈ fs, f.valid) → data = pre ++ stream fs →
      (parserLoop env data fuel d (pre.length : Nat) seen).completion = .normal →
      (parserLoop env data fuel d (pre.length : Nat) seen).dispatched = seen ++ fs
      ∧ (parserLoop env data fuel d (pre.length : Nat) seen).offset = (data.length : Nat) := by
  induction fs with
  | nil => intro _ _ _ _ h; exact absurd rfl h
  | cons f fs ih =>
    intro fuel d pre seen _ hval hdata hnorm
    have hf : f.valid := hval f (by simp)
    have hval2 : ∀ x ∈ fs, x.valid := fun x hx => hval x (by simp [hx])
    cases fuel with
    | zero => simp [parserLoop] at hnorm
    | succ fuel =>
      have hstep := parserLoop_step env data fuel d seen pre (stream fs) f
        (by rw [hdata, stream_cons]) hf.2 (by have := hf.1; omega)
      rw [hstep] at hnorm ⊢
      cases hc : (dispatch env fuel data f.type (pre.length + 5) ((f.payload.length : Int) + 4) d).2 with
      | normal =>
        rw [hc] at hnorm
        simp only [] at hnorm ⊢
        by_cases hp : stream fs = []
        · have hfs : fs = [] := (stream_eq_nil fs).mp hp
          rw [if_pos hp]
          subst hfs
          exact ⟨rfl, rfl⟩
        · have hfs : fs ≠ [] := fun h => hp ((stream_eq_nil fs).mpr h)
          rw [if_neg hp] at hnorm ⊢
          have := ih fuel _ (pre ++ frameBytes f) (seen ++ [f]) hfs hval2
            (by rw [hdata, stream_cons]; simp) hnorm
          simpa using this
      | throw e => rw [hc] at hnorm; simp at hnorm
      | running => rw [hc] at hnorm; simp at hnorm

/-- The same for `_parser`. -/
theorem parser_normal (env : Env) (fuel : Nat) (d : Driver) (fs : List Frame)
    (hne : fs ≠ []) (hval : ∀ f ∈ fs, f.valid)
    (hnorm : (parser env fuel (stream fs) d).completion = .normal) :
    (parser env fuel (stream fs) d).dispatched = fs
    ∧ (parser env fuel (stream fs) d).offset = ((stream fs).length : Nat) := by
  have := parserLoop_normal env (stream fs) fs fuel { d with data := stream fs } [] [] hne hval
    (by simp) hnorm
  simpa [parser] using this

/-- Chunks cut at message boundaries: when every parse completes normally,
the chunks hand over all their messages in order. -/
theorem deliver_normal (env : Env) (fuel : Nat) (chunks : List (List Frame)) :
    ∀ d : Driver, (∀ c ∈ chunks, c ≠ [] ∧ ∀ f ∈ c, f.valid) →
      (deliver env fuel (chunks.map stream) d).completion = .normal →
      (deliver env fuel (chunks.map stream) d).dispatched = chunks.flatten := by
  induction chunks with
  | nil => intro d _ _; rfl
  | cons c cs ih =>
    intro d hcs hnorm
    obtain ⟨hne, hval⟩ := hcs c (by simp)
    have hcs2 : ∀ x ∈ cs, x ≠ [] ∧ ∀ f ∈ x, f.valid := fun x hx => hcs x (by simp [hx])
    simp only [List.map_cons, deliver] at hnorm ⊢
    cases hc : (parser env fuel (stream c) d).completion with
    | normal =>
      rw [hc] at hnorm
      simp only [] at hnorm ⊢
      rw [(parser_normal env fuel d c hne hval hc).1, ih _ hcs2 hnorm]
      simp
    | throw e => rw [hc] at hnorm; simp only [] at hnorm; rw [hc] at hnorm; cases hnorm
    | running => rw [hc] at hnorm; simp only [] at hnorm; rw [hc] at hnorm; cases hnorm

/-- On the delivery made of `unterminatedError` alone the cursor of `_error`
cycles through 5, 0, 2, 4, 0, ...: `indexOf` finds no zero byte after the
last field and `start = end + 1` sets the cursor back to 0, which stays
below `length`. -/
theorem _errorLoop_unterminated (fuel : Nat) :
    ∀ (start : Nat) (err : ErrObj), start = 0 ∨ start = 2 ∨ start = 4 ∨ start = 5 →
      _errorLoop [69, 0, 0, 0, 6, 83, 65] 6 fuel start err = none := by
  induction fuel with
  | zero => intro _ _ _; rfl
  | succ fuel ih =>
    intro start err h
    rcases h with h | h | h | h <;> subst h
    · exact ih 2 _ (by simp)
    · exact ih 4 _ (by simp)
    · exact ih 0 _ (by simp)
    · exact ih 0 _ (by simp)

/-- The delivery made of `unterminatedError` alone never returns: whatever
the fuel, the run is still inside `_error`. -/
theorem unterminated_error_never_returns (env : Env) (fuel : Nat) (d : Driver) :
    (parser env fuel (stream [unterminatedError]) d).completion = .running := by
  cases fuel with
  | zero => rfl
  | succ fuel =>
    have hdisp : dispatch env fuel (stream [unterminatedError]) unterminatedError.type
        (([] : List Nat).length + 5) ((unterminatedError.payload.length : Int) + 4)
        { d with data := stream [unterminatedError] }
          = ({ d with data := stream [unterminatedError] }, .running) := by
      show _error fuel 5 6 { d with data := stream [unterminatedError] } = _
      unfold _error
      have h := _errorLoop_unterminated fuel 5 { code := none, message := none, severity := none }
        (by simp)
      show (match _errorLoop [69, 0, 0, 0, 6, 83, 65] 6 fuel 5
          { code := none, message := none, severity := none } with
        | none => _
        | some err => _) = _
      rw [h]
    have h := parserLoop_step_abort env (stream [unterminatedError]) fuel
      { d with data := stream [unterminatedError] } { d with data := stream [unterminatedError] }
      .running [] [] [] unterminatedError (by decide) (by decide) (by decide) hdisp (by decide)
    show (parserLoop env (stream [unterminatedError]) (fuel + 1)
      { d with data := stream [unterminatedError] } (([] : List Nat).length : Nat) []).completion = _
    rw [h]

/-- C1, as stated, fails, on a connected driver after the handshake: the
ready-for-query message `Z 0 0 0 5 I` delivered whole is handed to the
`switch`, but delivered as the two chunks `Z 0 0` and `0 5 I` nothing is:
the first chunk makes `readInt32BE` throw, and the second chunk, parsed on
its own, does so too.  A cut at a message boundary can change the outcome as
well: `unterminatedError` followed by a ready-for-query is handed over whole
when delivered at once (`indexOf` finds the zero byte of the next message),
while the chunk that holds `unterminatedError` alone never returns from
`_error`, and the ready-for-query is never reached. -/
theorem chunk_split_loses_message :
    (parser demoEnv 10 [90, 0, 0, 0, 5, 73] (session demoConfig 1 [])).dispatched
      = [{ type := 90, payload := [73] }]
    ∧ (parser demoEnv 10 [90, 0, 0, 0, 5, 73] (session demoConfig 1 [])).completion = .normal
    ∧ (deliver demoEnv 10 [[90, 0, 0], [0, 5, 73]] (session demoConfig 1 [])).dispatched = []
    ∧ (deliver demoEnv 10 [[90, 0, 0], [0, 5, 73]] (session demoConfig 1 [])).completion
        = .throw .rangeError
    ∧ (parser demoEnv 10 [0, 5, 73] (session demoConfig 1 [])).dispatched = []
    ∧ (deliver demoEnv 10 [[90, 0, 0], [0, 5, 73]] (session demoConfig 1 [])).dispatched
        ≠ (parser demoEnv 10 ([90, 0, 0] ++ [0, 5, 73]) (session demoConfig 1 [])).dispatched
    ∧ (parser demoEnv 10 (stream [unterminatedError, readyFrame 73])
        (session demoConfig 1 [])).dispatched = [unterminatedError, readyFrame 73]
    ∧ (parser demoEnv 10 (stream [unterminatedError, readyFrame 73])
        (session demoConfig 1 [])).completion = .normal
    ∧ (deliver demoEnv 10 ([[unterminatedError], [readyFrame 73]].map stream)
        (session demoConfig 1 [])).dispatched = [unterminatedError]
    ∧ (∀ fuel : Nat, (deliver demoEnv fuel ([[unterminatedError], [readyFrame 73]].map stream)
        (session demoConfig 1 [])).completion = .running) := by
  refine ⟨by decide, by decide, by decide, by decide, by decide, by decide, by decide, by decide,
    by decide, ?_⟩
  intro fuel
  have h := unterminated_error_never_returns demoEnv fuel (session demoConfig 1 [])
  simp only [List.map, deliver, h]

/-- C1, amended: when the chunks are cut at message boundaries (each chunk a
non-empty run of complete messages) and every call of `_parser` returns
normally, those of the chunks and that of the whole stream (none is ended by
an exception and none stays in a handler for ever), the messages handed to
the `switch` over the chunks are those of the single delivery of the whole
stream. -/
theorem chunk_boundary_invariance (env : Env) (fuel : Nat) (d : Driver)
    (chunks : List (List Frame))
    (hchunks : ∀ c ∈ chunks, c ≠ [] ∧ ∀ f ∈ c, f.valid) (hne : chunks ≠ [])
    (hparts : (deliver env fuel (chunks.map stream) d).completion = .normal)
    (hwhole : (parser env fuel (stream chunks.flatten) d).completion = .normal) :
    (deliver env fuel (chunks.map stream) d).dispatched
      = (parser env fuel (stream chunks.flatten) d).dispatched := by
  have hflat : chunks.flatten ≠ [] := by
    cases chunks with
    | nil => exact absurd rfl hne
    | cons c cs =>
      have := (hchunks c (by simp)).1
      cases c with
      | nil => exact absurd rfl this
      | cons f fs => simp
  have hval : ∀ f ∈ chunks.flatten, f.valid := by
    intro f hf
    obtain ⟨c, hc, hfc⟩ := List.mem_flatten.mp hf
    exact (hchunks c hc).2 f hfc
  rw [deliver_normal env fuel chunks d hchunks hparts,
    (parser_normal env fuel d chunks.flatten hflat hval hwhole).1]

/-- Witness of `chunk_boundary_invariance`: the answer to "select 1" on the
connected driver that has this query in flight, with the row description,
the data row and the command tag in one chunk and the ready-for-query in the
next. -/
theorem chunk_boundary_invariance_witness :
    (deliver demoEnv 10
        ([[{ type := 84, payload := [0, 1, 63, 99, 111, 108, 117, 109, 110, 63, 0, 0, 0, 0, 0, 0, 0,
                0, 0, 0, 23, 0, 4, 255, 255, 255, 255, 0, 0] },
           { type := 68, payload := [0, 1, 0, 0, 0, 1, 49] },
           { type := 67, payload := [83, 69, 76, 69, 67, 84, 32, 49, 0] }],
          [{ type := 90, payload := [73] }]].map stream) inFlight).dispatched
      = (parser demoEnv 10
          (stream ([[{ type := 84, payload := [0, 1, 63, 99, 111, 108, 117, 109, 110, 63, 0, 0, 0, 0, 0,
                0, 0, 0, 0, 0, 23, 0, 4, 255, 255, 255, 255, 0, 0] },
             { type := 68, payload := [0, 1, 0, 0, 0, 1, 49] },
             { type := 67, payload := [83, 69, 76, 69, 67, 84, 32, 49, 0] }],
            [{ type := 90, payload := [73] }]] : List (List Frame)).flatten) inFlight).dispatched :=
  chunk_boundary_invariance demoEnv 10 inFlight
    [[{ type := 84, payload := [0, 1, 63, 99, 111, 108, 117, 109, 110, 63, 0, 0, 0, 0, 0, 0, 0,
          0, 0, 0, 23, 0, 4, 255, 255, 255, 255, 0, 0] },
      { type := 68, payload := [0, 1, 0, 0, 0, 1, 49] },
      { type := 67, payload := [83, 69, 76, 69, 67, 84, 32, 49, 0] }],
      [{ type := 90, payload := [73] }]]
    (by simp [Frame.valid]) (by simp) (by decide) (by decide)

/-! ## The query queue -/

/-- The effect of `query` on the flag, the queue and the socket log. -/
theorem query_cases (text : String) (cb : Callback) (d : Driver) (hs : d.socketCreated = true) :
    (∃ e, queryBuffer text = .error e ∧ (query text cb d).1 = d)
    ∨ (∃ buffer, queryBuffer text = .ok buffer ∧
        ((d.isReadyForQuery = true ∧ d.queryQueue = []
            ∧ (query text cb d).1
              = socketWrite buffer { d with isReadyForQuery := false, callback := some cb })
        ∨ (¬ (d.isReadyForQuery = true ∧ d.queryQueue = [])
            ∧ (query text cb d).1
              = { d with queryQueue := d.queryQueue ++ [{ buffer := some buffer, callback := cb }] }))) := by
  unfold query
  cases h : queryBuffer text with
  | error e => exact Or.inl ⟨e, rfl, rfl⟩
  | ok buffer =>
    refine Or.inr ⟨buffer, rfl, ?_⟩
    by_cases hc : d.isReadyForQuery = true ∧ d.queryQueue.length = 0
    · have hq : d.queryQueue = [] := List.length_eq_zero.mp hc.2
      exact Or.inl ⟨hc.1, hq, by
        simp only [if_pos hc, socketSend]
        rw [if_pos (show ({ d with isReadyForQuery := false, callback := some cb } : Driver).socketCreated
          = true from hs)]⟩
    · have hc2 : ¬ (d.isReadyForQuery = true ∧ d.queryQueue = []) := by
        intro h2; exact hc ⟨h2.1, by rw [h2.2]; rfl⟩
      exact Or.inr ⟨hc2, by simp only [if_neg hc]⟩

/-- Calls of `query` before the first ready-for-query only fill the queue. -/
theorem queries_spec (early : List (String × Callback)) :
    ∀ d : Driver, d.isReadyForQuery = false → d.socketCreated = true →
      (queries early d).isReadyForQuery = false
      ∧ (∃ added, (queries early d).queryQueue = d.queryQueue ++ added
          ∧ added.filterMap (fun e => e.buffer) = submitted early)
      ∧ (queries early d).callback = d.callback
      ∧ (queries early d).invoked = d.invoked
      ∧ (queries early d).written = d.written
      ∧ (queries early d).socketCreated = true := by
  induction early with
  | nil => intro d h hs; exact ⟨h, ⟨[], by simp [queries], rfl⟩, rfl, rfl, rfl, hs⟩
  | cons tc rest ih =>
    intro d h hs
    rcases query_cases tc.1 tc.2 d hs with ⟨e, he, hq⟩ | ⟨buffer, hb, hq | hq⟩
    · obtain ⟨h1, ⟨added, h2, h3⟩, h4, h5, h6, h7⟩ := ih d h hs
      simp only [queries, hq, submitted, he]
      exact ⟨h1, ⟨added, h2, h3⟩, h4, h5, h6, h7⟩
    · rw [h] at hq; exact absurd hq.1 (by simp)
    · obtain ⟨h1, ⟨added, h2, h3⟩, h4, h5, h6, h7⟩ :=
        ih { d with queryQueue := d.queryQueue ++ [{ buffer := some buffer, callback := tc.2 }] } h hs
      simp only [queries, hq.2, submitted, hb]
      refine ⟨h1, ⟨{ buffer := some buffer, callback := tc.2 } :: added, ?_, ?_⟩, h4, h5, h6, h7⟩
      · rw [h2]; simp
      · simp [h3]

/-- `_startup` only appends to the socket log. -/
theorem _startup_frame (d : Driver) :
    (_startup d).1.queryQueue = d.queryQueue ∧ (_startup d).1.isReadyForQuery = d.isReadyForQuery
    ∧ (_startup d).1.callback = d.callback ∧ (_startup d).1.invoked = d.invoked
    ∧ (_startup d).1.socketCreated = d.socketCreated := by
  unfold _startup
  cases d.config with
  | none => exact ⟨rfl, rfl, rfl, rfl, rfl⟩
  | some config =>
    simp only []
    cases startupBuffer config with
    | error e => exact ⟨rfl, rfl, rfl, rfl, rfl⟩
    | ok buffer =>
      simp only [socketSend]
      split <;> exact ⟨rfl, rfl, rfl, rfl, rfl⟩

/-- The driver once the "connect" event has been handled: not ready, no
active continuation, the early queries queued, and the connect continuation
called once, with success. -/
theorem session_spec (config : Config) (cb : Callback) (early : List (String × Callback)) :
    (session config cb early).isReadyForQuery = false
    ∧ queueBuffers (session config cb early) = submitted early
    ∧ (session config cb early).callback = none
    ∧ (session config cb early).invoked
        = [{ callback := cb, err := none, res := some (.text "Connection successful.") }]
    ∧ (session config cb early).socketCreated = true := by
  obtain ⟨h1, ⟨added, h2, h3⟩, h4, h5, _, h7⟩ := queries_spec early (connect config cb new) rfl rfl
  have hq : (queries early (connect config cb new)).queryQueue
      = { buffer := none, callback := cb } :: added := by
    rw [h2]; rfl
  unfold session onConnect
  rw [hq]
  simp only []
  obtain ⟨s1, s2, s3, s4, s5⟩ := _startup_frame
    (invoke cb none (some (.text "Connection successful."))
      { queries early (connect config cb new) with queryQueue := added })
  refine ⟨?_, ?_, ?_, ?_, ?_⟩
  · rw [s2]; exact h1
  · unfold queueBuffers; rw [s1]; exact h3
  · rw [s3]; exact h4
  · rw [s4]; show (queries early (connect config cb new)).invoked ++ _ = _
    rw [h5]; rfl
  · rw [s5]; exact h7

/-- The effect of the "readyForQuery" listener. -/
theorem onReadyForQuery_cases (d : Driver) (hs : d.socketCreated = true) :
    (d.queryQueue = [] ∧ (onReadyForQuery d).1 = { d with isReadyForQuery := true })
    ∨ (∃ next rest, d.queryQueue = next :: rest ∧ next.buffer = none
        ∧ (onReadyForQuery d).1 = { d with isReadyForQuery := false, queryQueue := rest })
    ∨ (∃ next rest buffer, d.queryQueue = next :: rest ∧ next.buffer = some buffer
        ∧ (onReadyForQuery d).1
          = { socketWrite buffer { d with isReadyForQuery := false, queryQueue := rest }
              with callback := some next.callback }) := by
  unfold onReadyForQuery
  cases hq : d.queryQueue with
  | nil => exact Or.inl ⟨rfl, rfl⟩
  | cons next rest =>
    cases hb : next.buffer with
    | none => exact Or.inr (Or.inl ⟨next, rest, rfl, hb, by simp only [hb]⟩)
    | some buffer =>
      refine Or.inr (Or.inr ⟨next, rest, buffer, rfl, hb, ?_⟩)
      simp only [hb]
      rw [if_pos (show ({ d with isReadyForQuery := false, queryQueue := rest } : Driver).socketCreated
        = true from hs)]

/-- Readiness invariant and FIFO order along any sequence of `query` calls
and ready-for-query events. -/
theorem runEvents_spec (evs : List Event) :
    ∀ d : Driver, (d.isReadyForQuery = true → d.queryQueue = []) → d.socketCreated = true →
      ((runEvents d evs).isReadyForQuery = true → (runEvents d evs).queryQueue = [])
      ∧ ∃ sent rest, (runEvents d evs).written = d.written ++ sent
          ∧ sent ++ rest = queueBuffers d ++ submitted (calls evs) := by
  induction evs with
  | nil => intro d h _; exact ⟨h, [], queueBuffers d, by simp [runEvents], by simp [calls, submitted]⟩
  | cons e es ih =>
    intro d h hs
    cases e with
    | query text cb =>
      rcases query_cases text cb d hs with ⟨err, he, hq⟩ | ⟨buffer, hb, hq | hq⟩
      · obtain ⟨i1, sent, rest, i2, i3⟩ := ih d h hs
        simp only [runEvents, applyEvent, hq, calls, submitted, he]
        exact ⟨i1, sent, rest, i2, i3⟩
      · obtain ⟨hr, hqe, hq⟩ := hq
        obtain ⟨i1, sent, rest, i2, i3⟩ :=
          ih (socketWrite buffer { d with isReadyForQuery := false, callback := some cb })
            (by intro hc; cases hc) hs
        simp only [runEvents, applyEvent, hq, calls, submitted, hb]
        refine ⟨i1, buffer :: sent, rest, ?_, ?_⟩
        · rw [i2]; simp [socketWrite]
        · have e1 : queueBuffers (socketWrite buffer
              { d with isReadyForQuery := false, callback := some cb }) = [] := by
            simp [queueBuffers, socketWrite, hqe]
          have e2 : queueBuffers d = [] := by simp [queueBuffers, hqe]
          rw [e1] at i3
          rw [e2]
          simp only [List.nil_append, List.cons_append] at i3 ⊢
          rw [i3]
      · obtain ⟨hn, hq⟩ := hq
        have hnr : d.isReadyForQuery = false := by
          cases hr : d.isReadyForQuery with
          | false => rfl
          | true => exact absurd ⟨hr, h hr⟩ hn
        obtain ⟨i1, sent, rest, i2, i3⟩ :=
          ih { d with queryQueue := d.queryQueue ++ [{ buffer := some buffer, callback := cb }] }
            (by intro hc; rw [hnr] at hc; cases hc) hs
        simp only [runEvents, applyEvent, hq, calls, submitted, hb]
        refine ⟨i1, sent, rest, i2, ?_⟩
        rw [i3]
        simp [queueBuffers]
    | readyForQuery =>
      rcases onReadyForQuery_cases d hs with ⟨hq0, hq⟩ | ⟨next, tl, hq0, hb, hq⟩ | ⟨next, tl, buffer, hq0, hb, hq⟩
      · obtain ⟨i1, sent, rest, i2, i3⟩ := ih { d with isReadyForQuery := true } (fun _ => hq0) hs
        simp only [runEvents, applyEvent, hq, calls]
        refine ⟨i1, sent, rest, i2, ?_⟩
        rw [i3]; rfl
      · obtain ⟨i1, sent, rest, i2, i3⟩ :=
          ih { d with isReadyForQuery := false, queryQueue := tl } (by intro hc; cases hc) hs
        simp only [runEvents, applyEvent, hq, calls]
        refine ⟨i1, sent, rest, i2, ?_⟩
        rw [i3]
        simp [queueBuffers, hq0, hb]
      · obtain ⟨i1, sent, rest, i2, i3⟩ :=
          ih { socketWrite buffer { d with isReadyForQuery := false, queryQueue := tl }
               with callback := some next.callback } (by intro hc; cases hc) hs
        simp only [runEvents, applyEvent, hq, calls]
        refine ⟨i1, buffer :: sent, rest, ?_, ?_⟩
        · rw [i2]; simp [socketWrite]
        · have e1 : queueBuffers { socketWrite buffer
              { d with isReadyForQuery := false, queryQueue := tl }
              with callback := some next.callback } = tl.filterMap (fun e => e.buffer) := rfl
          have e2 : queueBuffers d = buffer :: tl.filterMap (fun e => e.buffer) := by
            simp [queueBuffers, hq0, hb]
          rw [e1] at i3
          rw [e2]
          simp only [List.cons_append]
          rw [i3]

theorem adjacentWrites_ready (l : List Obs) : adjacentWrites (.ready :: l) = adjacentWrites l := by
  simp [adjacentWrites]

theorem adjacentWrites_wrote (b : Buffer) (l : List Obs) (h : ∀ b2 l2, l ≠ .wrote b2 :: l2) :
    adjacentWrites (.wrote b :: l) = adjacentWrites l := by
  cases l with
  | nil => simp [adjacentWrites]
  | cons o l2 =>
    cases o with
    | ready => simp [adjacentWrites]
    | wrote b2 => exact absurd rfl (h b2 l2)

/-- No buffer is written while an earlier one still waits for its
ready-for-query. -/
theorem observations_spec (evs : List Event) :
    ∀ d : Driver, (d.isReadyForQuery = true → d.queryQueue = []) → d.socketCreated = true →
      adjacentWrites (observations d evs) = false
      ∧ (d.isReadyForQuery = false → ∀ b l, observations d evs ≠ .wrote b :: l) := by
  induction evs with
  | nil => intro d _ _; exact ⟨rfl, fun _ b l h => by simp [observations] at h⟩
  | cons e es ih =>
    intro d h hs
    cases e with
    | query text cb =>
      rcases query_cases text cb d hs with ⟨err, he, hq⟩ | ⟨buffer, hb, hq | hq⟩
      · obtain ⟨i1, i2⟩ := ih d h hs
        simp only [observations, observe, applyEvent, hq, List.drop_length, List.map_nil,
          List.nil_append, List.append_nil]
        exact ⟨i1, i2⟩
      · obtain ⟨hr, hqe, hq⟩ := hq
        obtain ⟨i1, i2⟩ :=
          ih (socketWrite buffer { d with isReadyForQuery := false, callback := some cb })
            (by intro hc; cases hc) hs
        have hobs : observe d (.query text cb) = [.wrote buffer] := by
          simp [observe, applyEvent, hq, socketWrite]
        simp only [observations, hobs, applyEvent, hq, List.singleton_append]
        refine ⟨?_, ?_⟩
        · rw [adjacentWrites_wrote buffer _ (i2 rfl)]; exact i1
        · intro hc; rw [hr] at hc; cases hc
      · obtain ⟨hn, hq⟩ := hq
        have hnr : d.isReadyForQuery = false := by
          cases hr : d.isReadyForQuery with
          | false => rfl
          | true => exact absurd ⟨hr, h hr⟩ hn
        obtain ⟨i1, i2⟩ :=
          ih { d with queryQueue := d.queryQueue ++ [{ buffer := some buffer, callback := cb }] }
            (by intro hc; rw [hnr] at hc; cases hc) hs
        have hobs : observe d (.query text cb) = [] := by
          simp [observe, applyEvent, hq]
        simp only [observations, hobs, applyEvent, hq, List.nil_append]
        exact ⟨i1, fun _ => i2 hnr⟩
    | readyForQuery =>
      rcases onReadyForQuery_cases d hs with ⟨hq0, hq⟩ | ⟨next, tl, hq0, hb, hq⟩ | ⟨next, tl, buffer, hq0, hb, hq⟩
      · obtain ⟨i1, _⟩ := ih { d with isReadyForQuery := true } (fun _ => hq0) hs
        have hobs : observe d .readyForQuery = [.ready] := by
          simp [observe, applyEvent, hq]
        simp only [observations, hobs, applyEvent, hq, List.singleton_append]
        exact ⟨by rw [adjacentWrites_ready]; exact i1, fun _ b l hc => by cases hc⟩
      · obtain ⟨i1, _⟩ :=
          ih { d with isReadyForQuery := false, queryQueue := tl } (by intro hc; cases hc) hs
        have hobs : observe d .readyForQuery = [.ready] := by
          simp [observe, applyEvent, hq]
        simp only [observations, hobs, applyEvent, hq, List.singleton_append]
        exact ⟨by rw [adjacentWrites_ready]; exact i1, fun _ b l hc => by cases hc⟩
      · obtain ⟨i1, i2⟩ :=
          ih { socketWrite buffer { d with isReadyForQuery := false, queryQueue := tl }
               with callback := some next.callback } (by intro hc; cases hc) hs
        have hobs : observe d .readyForQuery = [.ready, .wrote buffer] := by
          simp [observe, applyEvent, hq, socketWrite]
        simp only [observations, hobs, applyEvent, hq, List.cons_append, List.nil_append]
        refine ⟨?_, fun _ b l hc => by cases hc⟩
        rw [adjacentWrites_ready, adjacentWrites_wrote buffer _ (i2 rfl)]
        exact i1

/-- C2: starting from the driver as the "connect" event leaves it (the
queries made before that event are queued), along every sequence of `query`
calls and ready-for-query events the buffers written to the socket are an
initial segment of the submission sequence, in submission order, and no two
buffers are written without a ready-for-query processed in between. -/
theorem fifo_one_in_flight (config : Config) (cb : Callback) (early : List (String × Callback))
    (evs : List Event) :
    (∃ rest,
      (runEvents (session config cb early) evs).written.drop (session config cb early).written.length
        ++ rest = submitted early ++ submitted (calls evs))
    ∧ adjacentWrites (observations (session config cb early) evs) = false := by
  obtain ⟨hready, hqueue, _, _, hsock⟩ := session_spec config cb early
  have hinv : (session config cb early).isReadyForQuery = true
      → (session config cb early).queryQueue = [] := by
    intro hc; rw [hready] at hc; cases hc
  obtain ⟨_, sent, rest, h1, h2⟩ := runEvents_spec evs (session config cb early) hinv hsock
  refine ⟨⟨rest, ?_⟩, (observations_spec evs (session config cb early) hinv hsock).1⟩
  rw [h1, List.drop_left, h2, hqueue]

/-- C20: in every state reached from a new driver by `connect`, the
"connect" event and then any sequence of `query` calls and ready-for-query
events, a true `isReadyForQuery` comes with an empty `queryQueue`; so the
test of `query` (flag and empty queue) has the value of the flag alone. -/
theorem ready_implies_empty_queue (config : Config) (cb : Callback)
    (early : List (String × Callback)) (evs : List Event) :
    ((runEvents (session config cb early) evs).isReadyForQuery = true
      → (runEvents (session config cb early) evs).queryQueue = [])
    ∧ (decide ((runEvents (session config cb early) evs).isReadyForQuery = true
          ∧ (runEvents (session config cb early) evs).queryQueue.length = 0)
        = (runEvents (session config cb early) evs).isReadyForQuery) := by
  obtain ⟨hready, _, _, _, hsock⟩ := session_spec config cb early
  have hinv : (session config cb early).isReadyForQuery = true
      → (session config cb early).queryQueue = [] := by
    intro hc; rw [hready] at hc; cases hc
  have h := (runEvents_spec evs (session config cb early) hinv hsock).1
  refine ⟨h, ?_⟩
  cases hr : (runEvents (session config cb early) evs).isReadyForQuery with
  | false => simp
  | true => simp [h hr]

/-- `_fields` on a row description with at least one field entry. -/
theorem _fields_spec (env : Env) (d : Driver) (es : List FieldEntry) (pre post : List Nat)
    (hne : es ≠ []) (hn : es.length ≤ 32767)
    (hes : ∀ e ∈ es, 0 ∉ e.name ∧ e.skipped.length = 6 ∧ e.rest.length = 8
      ∧ -2147483648 ≤ e.oid ∧ e.oid ≤ 2147483647)
    (hdata : d.data = pre ++ (int16Bytes es.length ++ (es.flatMap fieldBytes ++ post))) :
    _fields env pre.length d
      = ({ d with results :=
            { d.results with fields := d.results.fields ++ es.map (fun e => utf8Decode e.name),
                             types := d.results.types ++ es.map (fun e => env.TYPES e.oid) } },
          .normal) := by
  have hpos : 0 < es.length := List.length_pos.mpr hne
  have hread : readInt16BE d.data (pre.length : Nat) = .ok (es.length : Int) :=
    readInt16BE_at d.data pre (es.flatMap fieldBytes ++ post) es.length (by omega) hdata
  have hloop := _fieldsLoop_spec env d.data es (pre ++ int16Bytes es.length) post d.results hes
    (by rw [hdata]; simp)
  have hstart : pre.length + 2 = (pre ++ int16Bytes (es.length : Int)).length := by
    simp [int16Bytes_length]
  unfold _fields
  simp only [hread]
  rw [if_neg (by omega), Int.toNat_ofNat, hstart, hloop]

/-- `_fields` on a row description without field entries: an early return. -/
theorem _fields_zero (env : Env) (d : Driver) (pre post : List Nat)
    (hdata : d.data = pre ++ (int16Bytes 0 ++ post)) :
    _fields env pre.length d = (d, .normal) := by
  have hread : readInt16BE d.data (pre.length : Nat) = .ok 0 :=
    readInt16BE_at d.data pre post 0 (by omega) hdata
  unfold _fields
  simp only [hread, if_true]

/-- `_rows` on a data row with at least one column. -/
theorem _rows_spec (d : Driver) (cols : List (Option (List Nat))) (pre post : List Nat)
    (hne : cols ≠ []) (hn : cols.length ≤ 32767)
    (hcols : ∀ v, some v ∈ cols → v.length ≤ 2147483647)
    (hdata : d.data = pre ++ (int16Bytes cols.length ++ (cols.flatMap columnBytes ++ post))) :
    _rows pre.length d
      = ({ d with results :=
            { d.results with rows := d.results.rows ++ [fillRow d.results.fields cols 0 Row.empty] } },
          .normal) := by
  have hpos : 0 < cols.length := List.length_pos.mpr hne
  have hread : readInt16BE d.data (pre.length : Nat) = .ok (cols.length : Int) :=
    readInt16BE_at d.data pre (cols.flatMap columnBytes ++ post) cols.length (by omega) hdata
  have hloop := _rowsLoop_spec d.data d.results.fields cols (pre ++ int16Bytes cols.length) post 0
    Row.empty hcols (by rw [hdata]; simp)
  have hstart : ((pre.length + 2 : Nat) : Int) = ((pre ++ int16Bytes (cols.length : Int)).length : Nat) := by
    simp [int16Bytes_length]
  unfold _rows
  simp only [hread]
  rw [if_neg (by omega), Int.toNat_ofNat, hstart, hloop]

/-- `_rows` on a data row without columns: an early return. -/
theorem _rows_zero (d : Driver) (pre post : List Nat)
    (hdata : d.data = pre ++ (int16Bytes 0 ++ post)) :
    _rows pre.length d = (d, .normal) := by
  have hread : readInt16BE d.data (pre.length : Nat) = .ok 0 :=
    readInt16BE_at d.data pre post 0 (by omega) hdata
  unfold _rows
  simp only [hread, if_true]

theorem dispatch_R (env : Env) (fuel : Nat) (data : Buffer) (offset : Nat) (length : Int)
    (d : Driver) : dispatch env fuel data 82 offset length d = _password env offset d := rfl

theorem dispatch_E (env : Env) (fuel : Nat) (data : Buffer) (offset : Nat) (length : Int)
    (d : Driver) : dispatch env fuel data 69 offset length d = _error fuel offset length d := rfl

theorem dispatch_Z (env : Env) (fuel : Nat) (data : Buffer) (offset : Nat) (length : Int)
    (d : Driver) : dispatch env fuel data 90 offset length d = emitReadyForQuery d := rfl

theorem emitReadyForQuery_socket (d : Driver) (hs : d.socketCreated = true) :
    emitReadyForQuery d = onReadyForQuery d := by
  unfold emitReadyForQuery
  rw [if_pos hs]

theorem emitReadyForQuery_null (d : Driver) (hs : d.socketCreated = false) :
    emitReadyForQuery d = (d, .throw .typeError) := by
  unfold emitReadyForQuery
  rw [if_neg (by rw [hs]; simp)]

theorem dispatch_T (env : Env) (fuel : Nat) (data : Buffer) (offset : Nat) (length : Int)
    (d : Driver) : dispatch env fuel data 84 offset length d = _fields env offset d := rfl

theorem dispatch_D (env : Env) (fuel : Nat) (data : Buffer) (offset : Nat) (length : Int)
    (d : Driver) : dispatch env fuel data 68 offset length d = _rows offset d := rfl

theorem dispatch_C (env : Env) (fuel : Nat) (data : Buffer) (offset : Nat) (length : Int)
    (d : Driver) : dispatch env fuel data 67 offset length d = commandComplete data offset d := rfl

theorem dispatch_other (env : Env) (fuel : Nat) (data : Buffer) (type offset : Nat) (length : Int)
    (d : Driver) (h : type ≠ 82 ∧ type ≠ 69 ∧ type ≠ 90 ∧ type ≠ 84 ∧ type ≠ 68 ∧ type ≠ 67) :
    dispatch env fuel data type offset length d = (d, .normal) := by
  obtain ⟨h1, h2, h3, h4, h5, h6⟩ := h
  unfold dispatch
  rw [if_neg (show ¬ type = 'R'.toNat from h1), if_neg (show ¬ type = 'E'.toNat from h2),
    if_neg (show ¬ type = 'Z'.toNat from h3), if_neg (show ¬ type = 'T'.toNat from h4),
    if_neg (show ¬ type = 'D'.toNat from h5), if_neg (show ¬ type = 'C'.toNat from h6)]

set_option maxRecDepth 100000 in
/-- C3: on a freshly constructed driver whose active continuation is that of
"select 1" (with or without a socket: `socket` is `false` right after the
constructor), one delivery made of the row description (one field
"?column?", type OID 23), the data row ("1"), the command tag "SELECT 1" and
ready-for-query calls the continuation once, with a null error and a result
whose fields are ["?column?"], whose rows are exactly
[\x7b"?column?": "1"\x7d] and whose status is "SELECT 1"; four turns of the
loop suffice.  The parse then ends normally on a driver that has a socket,
and by the TypeError of `this.socket.emit` on one that has none. -/
theorem select1_round_trip (env : Env) (cb : Callback) (socket : Bool) (fuel : Nat) :
    (parser env (fuel + 4) select1Response
        { new with callback := some cb, socketCreated := socket }).state.invoked
      = [{ callback := cb, err := none,
           res := some (.results
            { fields := ["?column?"], types := [env.TYPES 23],
              rows := [{ detached := false, props := [("?column?", some "1")] }],
              status := "SELECT 1" }) }]
    ∧ (parser env (fuel + 4) select1Response
        { new with callback := some cb, socketCreated := socket }).completion
      = (if socket = true then .normal else .throw .typeError) := by
  have hT : dispatch env (fuel + 3) select1Response 84 (([] : List Nat).length + 5) (((29 : Nat) : Int) + 4)
      ({ config := none, callback := some cb, data := select1Response, queryQueue := [], results := { fields := [], types := [], rows := [], status := "" }, isReadyForQuery := false, socketCreated := socket, ended := false, written := [], invoked := [] } : Driver) = (({ config := none, callback := some cb, data := select1Response, queryQueue := [], results := { fields := ["?column?"], types := [env.TYPES 23], rows := [], status := "" }, isReadyForQuery := false, socketCreated := socket, ended := false, written := [], invoked := [] } : Driver), .normal) := by
    rw [dispatch_T]
    exact _fields_spec env ({ config := none, callback := some cb, data := select1Response, queryQueue := [], results := { fields := [], types := [], rows := [], status := "" }, isReadyForQuery := false, socketCreated := socket, ended := false, written := [], invoked := [] } : Driver)
      [({ name := [63, 99, 111, 108, 117, 109, 110, 63], skipped := [0, 0, 0, 0, 0, 0], oid := 23, rest := [0, 4, 255, 255, 255, 255, 0, 0] } : FieldEntry)] [84, 0, 0, 0, 33] (stream [({ type := 68, payload := [0, 1, 0, 0, 0, 1, 49] } : Frame), ({ type := 67, payload := [83, 69, 76, 69, 67, 84, 32, 49, 0] } : Frame), ({ type := 90, payload := [73] } : Frame)])
      (by simp) (by decide) (by decide) (show select1Response = _ by decide)
  have hD : dispatch env (fuel + 2) select1Response 68 (([] ++ frameBytes ({ type := 84, payload := [0, 1, 63, 99, 111, 108, 117, 109, 110, 63, 0, 0, 0, 0, 0, 0, 0, 0, 0, 0, 23, 0, 4, 255, 255, 255, 255, 0, 0] } : Frame)).length + 5) (((7 : Nat) : Int) + 4)
      ({ config := none, callback := some cb, data := select1Response, queryQueue := [], results := { fields := ["?column?"], types := [env.TYPES 23], rows := [], status := "" }, isReadyForQuery := false, socketCreated := socket, ended := false, written := [], invoked := [] } : Driver) = (({ config := none, callback := some cb, data := select1Response, queryQueue := [], results := { fields := ["?column?"], types := [env.TYPES 23], rows := [{ detached := false, props := [("?column?", some "1")] }], status := "" }, isReadyForQuery := false, socketCreated := socket, ended := false, written := [], invoked := [] } : Driver), .normal) := by
    rw [dispatch_D]
    have h := _rows_spec ({ config := none, callback := some cb, data := select1Response, queryQueue := [], results := { fields := ["?column?"], types := [env.TYPES 23], rows := [], status := "" }, isReadyForQuery := false, socketCreated := socket, ended := false, written := [], invoked := [] } : Driver) [some [49]] (([] ++ frameBytes ({ type := 84, payload := [0, 1, 63, 99, 111, 108, 117, 109, 110, 63, 0, 0, 0, 0, 0, 0, 0, 0, 0, 0, 23, 0, 4, 255, 255, 255, 255, 0, 0] } : Frame)) ++ [68, 0, 0, 0, 11]) (stream [({ type := 67, payload := [83, 69, 76, 69, 67, 84, 32, 49, 0] } : Frame), ({ type := 90, payload := [73] } : Frame)])
      (by simp) (by decide) (by intro v hv; simp at hv; subst hv; decide) (show select1Response = _ by decide)
    have e1 : (([] ++ frameBytes ({ type := 84, payload := [0, 1, 63, 99, 111, 108, 117, 109, 110, 63, 0, 0, 0, 0, 0, 0, 0, 0, 0, 0, 23, 0, 4, 255, 255, 255, 255, 0, 0] } : Frame)) ++ [68, 0, 0, 0, 11]).length
        = ([] ++ frameBytes ({ type := 84, payload := [0, 1, 63, 99, 111, 108, 117, 109, 110, 63, 0, 0, 0, 0, 0, 0, 0, 0, 0, 0, 23, 0, 4, 255, 255, 255, 255, 0, 0] } : Frame)).length + 5 := by decide
    have e2 : fillRow ["?column?"] [some [49]] 0 Row.empty
        = { detached := false, props := [("?column?", some "1")] } := by decide
    rw [e1] at h
    rw [h]
    simp only [e2, List.nil_append]
  have hC : dispatch env (fuel + 1) select1Response 67 ((([] ++ frameBytes ({ type := 84, payload := [0, 1, 63, 99, 111, 108, 117, 109, 110, 63, 0, 0, 0, 0, 0, 0, 0, 0, 0, 0, 23, 0, 4, 255, 255, 255, 255, 0, 0] } : Frame)) ++ frameBytes ({ type := 68, payload := [0, 1, 0, 0, 0, 1, 49] } : Frame)).length + 5) (((9 : Nat) : Int) + 4)
      ({ config := none, callback := some cb, data := select1Response, queryQueue := [], results := { fields := ["?column?"], types := [env.TYPES 23], rows := [{ detached := false, props := [("?column?", some "1")] }], status := "" }, isReadyForQuery := false, socketCreated := socket, ended := false, written := [], invoked := [] } : Driver) = (({ config := none, callback := some cb, data := select1Response, queryQueue := [], results := { fields := ["?column?"], types := [env.TYPES 23], rows := [{ detached := false, props := [("?column?", some "1")] }], status := "SELECT 1" }, isReadyForQuery := false, socketCreated := socket, ended := false, written := [], invoked := [{ callback := cb, err := none, res := some (.results { fields := ["?column?"], types := [env.TYPES 23], rows := [{ detached := false, props := [("?column?", some "1")] }], status := "SELECT 1" }) }] } : Driver), .normal) := by
    rw [dispatch_C]
    exact commandComplete_at select1Response ({ config := none, callback := some cb, data := select1Response, queryQueue := [], results := { fields := ["?column?"], types := [env.TYPES 23], rows := [{ detached := false, props := [("?column?", some "1")] }], status := "" }, isReadyForQuery := false, socketCreated := socket, ended := false, written := [], invoked := [] } : Driver) ((([] ++ frameBytes ({ type := 84, payload := [0, 1, 63, 99, 111, 108, 117, 109, 110, 63, 0, 0, 0, 0, 0, 0, 0, 0, 0, 0, 23, 0, 4, 255, 255, 255, 255, 0, 0] } : Frame)) ++ frameBytes ({ type := 68, payload := [0, 1, 0, 0, 0, 1, 49] } : Frame)) ++ [67, 0, 0, 0, 13])
      [83, 69, 76, 69, 67, 84, 32, 49] (stream [({ type := 90, payload := [73] } : Frame)]) (some cb) rfl (by decide) (by decide)
  have s1 := parserLoop_step_normal env select1Response (fuel + 3) ({ config := none, callback := some cb, data := select1Response, queryQueue := [], results := { fields := [], types := [], rows := [], status := "" }, isReadyForQuery := false, socketCreated := socket, ended := false, written := [], invoked := [] } : Driver) ({ config := none, callback := some cb, data := select1Response, queryQueue := [], results := { fields := ["?column?"], types := [env.TYPES 23], rows := [], status := "" }, isReadyForQuery := false, socketCreated := socket, ended := false, written := [], invoked := [] } : Driver) [] [] (stream [({ type := 68, payload := [0, 1, 0, 0, 0, 1, 49] } : Frame), ({ type := 67, payload := [83, 69, 76, 69, 67, 84, 32, 49, 0] } : Frame), ({ type := 90, payload := [73] } : Frame)]) ({ type := 84, payload := [0, 1, 63, 99, 111, 108, 117, 109, 110, 63, 0, 0, 0, 0, 0, 0, 0, 0, 0, 0, 23, 0, 4, 255, 255, 255, 255, 0, 0] } : Frame)
    (by decide) (by decide) (by decide) hT (by decide)
  have s2 := parserLoop_step_normal env select1Response (fuel + 2) ({ config := none, callback := some cb, data := select1Response, queryQueue := [], results := { fields := ["?column?"], types := [env.TYPES 23], rows := [], status := "" }, isReadyForQuery := false, socketCreated := socket, ended := false, written := [], invoked := [] } : Driver) ({ config := none, callback := some cb, data := select1Response, queryQueue := [], results := { fields := ["?column?"], types := [env.TYPES 23], rows := [{ detached := false, props := [("?column?", some "1")] }], status := "" }, isReadyForQuery := false, socketCreated := socket, ended := false, written := [], invoked := [] } : Driver) [({ type := 84, payload := [0, 1, 63, 99, 111, 108, 117, 109, 110, 63, 0, 0, 0, 0, 0, 0, 0, 0, 0, 0, 23, 0, 4, 255, 255, 255, 255, 0, 0] } : Frame)] ([] ++ frameBytes ({ type := 84, payload := [0, 1, 63, 99, 111, 108, 117, 109, 110, 63, 0, 0, 0, 0, 0, 0, 0, 0, 0, 0, 23, 0, 4, 255, 255, 255, 255, 0, 0] } : Frame)) (stream [({ type := 67, payload := [83, 69, 76, 69, 67, 84, 32, 49, 0] } : Frame), ({ type := 90, payload := [73] } : Frame)]) ({ type := 68, payload := [0, 1, 0, 0, 0, 1, 49] } : Frame)
    (by decide) (by decide) (by decide) hD (by decide)
  have s3 := parserLoop_step_normal env select1Response (fuel + 1) ({ config := none, callback := some cb, data := select1Response, queryQueue := [], results := { fields := ["?column?"], types := [env.TYPES 23], rows := [{ detached := false, props := [("?column?", some "1")] }], status := "" }, isReadyForQuery := false, socketCreated := socket, ended := false, written := [], invoked := [] } : Driver) ({ config := none, callback := some cb, data := select1Response, queryQueue := [], results := { fields := ["?column?"], types := [env.TYPES 23], rows := [{ detached := false, props := [("?column?", some "1")] }], status := "SELECT 1" }, isReadyForQuery := false, socketCreated := socket, ended := false, written := [], invoked := [{ callback := cb, err := none, res := some (.results { fields := ["?column?"], types := [env.TYPES 23], rows := [{ detached := false, props := [("?column?", some "1")] }], status := "SELECT 1" }) }] } : Driver) [({ type := 84, payload := [0, 1, 63, 99, 111, 108, 117, 109, 110, 63, 0, 0, 0, 0, 0, 0, 0, 0, 0, 0, 23, 0, 4, 255, 255, 255, 255, 0, 0] } : Frame), ({ type := 68, payload := [0, 1, 0, 0, 0, 1, 49] } : Frame)] (([] ++ frameBytes ({ type := 84, payload := [0, 1, 63, 99, 111, 108, 117, 109, 110, 63, 0, 0, 0, 0, 0, 0, 0, 0, 0, 0, 23, 0, 4, 255, 255, 255, 255, 0, 0] } : Frame)) ++ frameBytes ({ type := 68, payload := [0, 1, 0, 0, 0, 1, 49] } : Frame)) (stream [({ type := 90, payload := [73] } : Frame)]) ({ type := 67, payload := [83, 69, 76, 69, 67, 84, 32, 49, 0] } : Frame)
    (by decide) (by decide) (by decide) hC (by decide)
  have s123 : parser env (fuel + 4) select1Response { new with callback := some cb, socketCreated := socket }
      = parserLoop env select1Response (fuel + 1) ({ config := none, callback := some cb, data := select1Response, queryQueue := [], results := { fields := ["?column?"], types := [env.TYPES 23], rows := [{ detached := false, props := [("?column?", some "1")] }], status := "SELECT 1" }, isReadyForQuery := false, socketCreated := socket, ended := false, written := [], invoked := [{ callback := cb, err := none, res := some (.results { fields := ["?column?"], types := [env.TYPES 23], rows := [{ detached := false, props := [("?column?", some "1")] }], status := "SELECT 1" }) }] } : Driver) (((([] ++ frameBytes ({ type := 84, payload := [0, 1, 63, 99, 111, 108, 117, 109, 110, 63, 0, 0, 0, 0, 0, 0, 0, 0, 0, 0, 23, 0, 4, 255, 255, 255, 255, 0, 0] } : Frame)) ++ frameBytes ({ type := 68, payload := [0, 1, 0, 0, 0, 1, 49] } : Frame)) ++ frameBytes ({ type := 67, payload := [83, 69, 76, 69, 67, 84, 32, 49, 0] } : Frame)).length : Nat) [({ type := 84, payload := [0, 1, 63, 99, 111, 108, 117, 109, 110, 63, 0, 0, 0, 0, 0, 0, 0, 0, 0, 0, 23, 0, 4, 255, 255, 255, 255, 0, 0] } : Frame), ({ type := 68, payload := [0, 1, 0, 0, 0, 1, 49] } : Frame), ({ type := 67, payload := [83, 69, 76, 69, 67, 84, 32, 49, 0] } : Frame)] :=
    s1.trans (s2.trans s3)
  rw [s123]
  cases socket with
  | true =>
    have hZ : dispatch env fuel select1Response 90 (((([] ++ frameBytes ({ type := 84, payload := [0, 1, 63, 99, 111, 108, 117, 109, 110, 63, 0, 0, 0, 0, 0, 0, 0, 0, 0, 0, 23, 0, 4, 255, 255, 255, 255, 0, 0] } : Frame)) ++ frameBytes ({ type := 68, payload := [0, 1, 0, 0, 0, 1, 49] } : Frame)) ++ frameBytes ({ type := 67, payload := [83, 69, 76, 69, 67, 84, 32, 49, 0] } : Frame)).length + 5) (((1 : Nat) : Int) + 4)
        ({ config := none, callback := some cb, data := select1Response, queryQueue := [], results := { fields := ["?column?"], types := [env.TYPES 23], rows := [{ detached := false, props := [("?column?", some "1")] }], status := "SELECT 1" }, isReadyForQuery := false, socketCreated := true, ended := false, written := [], invoked := [{ callback := cb, err := none, res := some (.results { fields := ["?column?"], types := [env.TYPES 23], rows := [{ detached := false, props := [("?column?", some "1")] }], status := "SELECT 1" }) }] } : Driver)
        = (({ config := none, callback := some cb, data := select1Response, queryQueue := [], results := { fields := ["?column?"], types := [env.TYPES 23], rows := [{ detached := false, props := [("?column?", some "1")] }], status := "SELECT 1" }, isReadyForQuery := true, socketCreated := true, ended := false, written := [], invoked := [{ callback := cb, err := none, res := some (.results { fields := ["?column?"], types := [env.TYPES 23], rows := [{ detached := false, props := [("?column?", some "1")] }], status := "SELECT 1" }) }] } : Driver), .normal) := by
      rw [dispatch_Z, emitReadyForQuery_socket _ rfl]; rfl
    rw [parserLoop_step_last env select1Response fuel _ _ [({ type := 84, payload := [0, 1, 63, 99, 111, 108, 117, 109, 110, 63, 0, 0, 0, 0, 0, 0, 0, 0, 0, 0, 23, 0, 4, 255, 255, 255, 255, 0, 0] } : Frame), ({ type := 68, payload := [0, 1, 0, 0, 0, 1, 49] } : Frame), ({ type := 67, payload := [83, 69, 76, 69, 67, 84, 32, 49, 0] } : Frame)] ((([] ++ frameBytes ({ type := 84, payload := [0, 1, 63, 99, 111, 108, 117, 109, 110, 63, 0, 0, 0, 0, 0, 0, 0, 0, 0, 0, 23, 0, 4, 255, 255, 255, 255, 0, 0] } : Frame)) ++ frameBytes ({ type := 68, payload := [0, 1, 0, 0, 0, 1, 49] } : Frame)) ++ frameBytes ({ type := 67, payload := [83, 69, 76, 69, 67, 84, 32, 49, 0] } : Frame)) ({ type := 90, payload := [73] } : Frame)
      (by decide) (by decide) (by decide) hZ]
    exact ⟨rfl, rfl⟩
  | false =>
    have hZ : dispatch env fuel select1Response 90 (((([] ++ frameBytes ({ type := 84, payload := [0, 1, 63, 99, 111, 108, 117, 109, 110, 63, 0, 0, 0, 0, 0, 0, 0, 0, 0, 0, 23, 0, 4, 255, 255, 255, 255, 0, 0] } : Frame)) ++ frameBytes ({ type := 68, payload := [0, 1, 0, 0, 0, 1, 49] } : Frame)) ++ frameBytes ({ type := 67, payload := [83, 69, 76, 69, 67, 84, 32, 49, 0] } : Frame)).length + 5) (((1 : Nat) : Int) + 4)
        ({ config := none, callback := some cb, data := select1Response, queryQueue := [], results := { fields := ["?column?"], types := [env.TYPES 23], rows := [{ detached := false, props := [("?column?", some "1")] }], status := "SELECT 1" }, isReadyForQuery := false, socketCreated := false, ended := false, written := [], invoked := [{ callback := cb, err := none, res := some (.results { fields := ["?column?"], types := [env.TYPES 23], rows := [{ detached := false, props := [("?column?", some "1")] }], status := "SELECT 1" }) }] } : Driver)
        = (({ config := none, callback := some cb, data := select1Response, queryQueue := [], results := { fields := ["?column?"], types := [env.TYPES 23], rows := [{ detached := false, props := [("?column?", some "1")] }], status := "SELECT 1" }, isReadyForQuery := false, socketCreated := false, ended := false, written := [], invoked := [{ callback := cb, err := none, res := some (.results { fields := ["?column?"], types := [env.TYPES 23], rows := [{ detached := false, props := [("?column?", some "1")] }], status := "SELECT 1" }) }] } : Driver), .throw .typeError) := by
      rw [dispatch_Z, emitReadyForQuery_null _ rfl]
    rw [parserLoop_step_abort env select1Response fuel _ _ (.throw .typeError) [({ type := 84, payload := [0, 1, 63, 99, 111, 108, 117, 109, 110, 63, 0, 0, 0, 0, 0, 0, 0, 0, 0, 0, 23, 0, 4, 255, 255, 255, 255, 0, 0] } : Frame), ({ type := 68, payload := [0, 1, 0, 0, 0, 1, 49] } : Frame), ({ type := 67, payload := [83, 69, 76, 69, 67, 84, 32, 49, 0] } : Frame)] ((([] ++ frameBytes ({ type := 84, payload := [0, 1, 63, 99, 111, 108, 117, 109, 110, 63, 0, 0, 0, 0, 0, 0, 0, 0, 0, 0, 23, 0, 4, 255, 255, 255, 255, 0, 0] } : Frame)) ++ frameBytes ({ type := 68, payload := [0, 1, 0, 0, 0, 1, 49] } : Frame)) ++ frameBytes ({ type := 67, payload := [83, 69, 76, 69, 67, 84, 32, 49, 0] } : Frame)) [] ({ type := 90, payload := [73] } : Frame)
      (by decide) (by decide) (by decide) hZ (by simp)]
    exact ⟨rfl, rfl⟩

/-! ## Rows as objects keyed by field name -/

theorem find_assign_same (k : String) (v : Option String) (props : List (String × Option String)) :
    (assign k v props).find? (fun kv => kv.1 = k) = some (k, v) := by
  induction props with
  | nil => simp [assign]
  | cons p ps ih =>
    obtain ⟨k2, v2⟩ := p
    by_cases h : k2 = k
    · simp [assign, h]
    · simp [assign, h, ih]

theorem find_assign_other (k k2 : String) (v : Option String)
    (props : List (String × Option String)) (h : k2 ≠ k) :
    (assign k2 v props).find? (fun kv => kv.1 = k) = props.find? (fun kv => kv.1 = k) := by
  induction props with
  | nil => simp [assign, h]
  | cons p ps ih =>
    obtain ⟨k3, v3⟩ := p
    by_cases h3 : k3 = k2
    · subst h3
      simp [assign, h]
    · by_cases h4 : k3 = k
      · subst h4
        simp [assign, h3]
      · simp [assign, h3, h4, ih]

theorem Row.get_set_same (row : Row) (k : String) (v : Option String) (hk : k ≠ "__proto__") :
    (row.set k v).get k = some v := by
  unfold Row.set Row.get
  rw [if_neg (fun h => hk h.1)]
  simp only [find_assign_same, Option.map_some']

theorem Row.get_set_other (row : Row) (k k2 : String) (v : Option String) (h : k2 ≠ k) :
    (row.set k2 v).get k = row.get k := by
  unfold Row.set Row.get
  split
  · cases v <;> rfl
  · simp only [find_assign_other k k2 v row.props h]

theorem get_fillRow_other (fields : List String) (k : String) (cols : List (Option (List Nat))) :
    ∀ (i : Nat) (row : Row), (∀ j, j < cols.length → propertyKey fields[i + j]? ≠ k) →
      (fillRow fields cols i row).get k = row.get k := by
  induction cols with
  | nil => intro i row _; rfl
  | cons c cs ih =>
    intro i row h
    have h0 : propertyKey fields[i]? ≠ k := by
      have := h 0 (by simp)
      simpa using this
    rw [fillRow, ih (i + 1) _ (fun j hj => by
      have := h (j + 1) (by simp; omega)
      rw [show i + 1 + j = i + (j + 1) by omega]; exact this)]
    exact Row.get_set_other row k _ _ h0

theorem get_fillRow_at (fields : List String) (cols : List (Option (List Nat))) :
    ∀ (i : Nat) (row : Row) (j : Nat) (c : Option (List Nat)), cols[j]? = some c →
      propertyKey fields[i + j]? ≠ "__proto__" →
      (∀ j2, j < j2 → j2 < cols.length → propertyKey fields[i + j2]? ≠ propertyKey fields[i + j]?) →
      (fillRow fields cols i row).get (propertyKey fields[i + j]?) = some (c.map utf8Decode) := by
  induction cols with
  | nil => intro i row j c h; simp at h
  | cons c0 cs ih =>
    intro i row j c hc hk hlater
    cases j with
    | zero =>
      simp only [List.getElem?_cons_zero, Option.some.injEq] at hc
      subst hc
      rw [fillRow, get_fillRow_other fields _ cs (i + 1) _ (fun j2 hj2 => by
        have := hlater (j2 + 1) (by omega) (by simp; omega)
        rw [show i + 1 + j2 = i + (j2 + 1) by omega]; exact this)]
      exact Row.get_set_same row _ _ hk
    | succ j =>
      simp only [List.getElem?_cons_succ] at hc
      have e : i + (j + 1) = i + 1 + j := by omega
      rw [e] at hk ⊢
      rw [fillRow]
      exact ih (i + 1) _ j c hc hk (fun j2 h1 h2 => by
        have := hlater (j2 + 1) (by omega) (by simp; omega)
        rw [show i + 1 + j2 = i + (j2 + 1) by omega, ← e]; exact this)

/-- C4, as stated, fails: after a row description with two fields both named
"a", the data row (null, "x") is stored as the one-property object
{"a": "x"}: the value kept for the first field is not the null marker. -/
theorem null_column_overwritten :
    (parser demoEnv 5 sameNameDelivery new).completion = .normal
    ∧ (parser demoEnv 5 sameNameDelivery new).state.results.fields = ["a", "a"]
    ∧ (parser demoEnv 5 sameNameDelivery new).state.results.rows
        = [{ detached := false, props := [("a", some "x")] }]
    ∧ (parser demoEnv 5 sameNameDelivery new).state.results.rows.map (fun row => row.get "a")
        ≠ [some none] := by
  decide

/-- C4, amended: for every data row with at least one column, `_rows`
appends the row built by the assignments `row[fields[i]] = value_i` in column
order, where a column of length -1 contributes the null marker and consumes
no value bytes, and every other column the decoding of its own bytes (the
empty string for length 0, which is not the null marker).  The value found
in the appended row under the name of column `i` is that of column `i`
whenever no later column of the row has the same name and the name is not
`__proto__`. -/
theorem null_column_is_null (d : Driver) (cols : List (Option (List Nat))) (pre post : List Nat)
    (hne : cols ≠ []) (hn : cols.length ≤ 32767)
    (hcols : ∀ v, some v ∈ cols → v.length ≤ 2147483647)
    (hdata : d.data = pre ++ (int16Bytes cols.length ++ (cols.flatMap columnBytes ++ post))) :
    _rows pre.length d
      = ({ d with results :=
            { d.results with rows := d.results.rows ++ [fillRow d.results.fields cols 0 Row.empty] } },
          .normal)
    ∧ (∀ i, propertyKey d.results.fields[i]? ≠ "__proto__" →
        (∀ j, i < j → j < cols.length →
          propertyKey d.results.fields[j]? ≠ propertyKey d.results.fields[i]?) →
        (cols[i]? = some none →
          (fillRow d.results.fields cols 0 Row.empty).get (propertyKey d.results.fields[i]?)
            = some none)
        ∧ (∀ v, cols[i]? = some (some v) →
          (fillRow d.results.fields cols 0 Row.empty).get (propertyKey d.results.fields[i]?)
            = some (some (utf8Decode v))))
    ∧ utf8Decode [] = "" ∧ columnBytes none = int32Bytes (-1) := by
  refine ⟨_rows_spec d cols pre post hne hn hcols hdata, ?_, rfl, rfl⟩
  intro i hk hlater
  have key := get_fillRow_at d.results.fields cols 0 Row.empty i
  simp only [Nat.zero_add] at key
  exact ⟨fun hc => key none hc hk hlater, fun v hc => key (some v) hc hk hlater⟩

/-- Witness of `null_column_is_null`: the row (null, "", "x") under the
fields "a", "b", "c". -/
theorem null_column_is_null_witness :
    (fillRow ["a", "b", "c"] [none, some [], some [120]] 0 Row.empty).get "a" = some none
    ∧ (fillRow ["a", "b", "c"] [none, some [], some [120]] 0 Row.empty).get "b" = some (some "") := by
  have h := null_column_is_null
    { new with results := { fields := ["a", "b", "c"], types := [], rows := [], status := "" },
               data := [68, 0, 0, 0, 23, 0, 3, 255, 255, 255, 255, 0, 0, 0, 0, 0, 0, 0, 1, 120] }
    [none, some [], some [120]] [68, 0, 0, 0, 23] []
    (by simp) (by decide) (by intro v hv; simp at hv; rcases hv with h | h <;> subst h <;> decide)
    (by decide)
  exact ⟨(h.2.1 0 (by decide) (by intro j h1 h2; have h3 : j < 3 := h2; interval_cases j <;> decide)).1 rfl,
    (h.2.1 1 (by decide) (by intro j h1 h2; have h3 : j < 3 := h2; interval_cases j; decide)).2 [] rfl⟩

/-! ## Messages built by the driver -/

theorem isAscii_append (s t : String) (hs : isAscii s) (ht : isAscii t) : isAscii (s ++ t) := by
  intro c hc
  simp only [String.data_append, List.mem_append] at hc
  rcases hc with h | h
  · exact hs c h
  · exact ht c h

theorem utf8Encode_append (s t : String) : utf8Encode (s ++ t) = utf8Encode s ++ utf8Encode t := by
  simp [utf8Encode]

/-- The buffer of a tagged message (`'Q'` or `'p'`, 4-byte length, string,
zero terminator) as lines 162-168 and 149-153 build it, for ASCII strings. -/
theorem tagged_message (tag s : String) (c : Char) (htag : tag.data = [c]) (hc : c.toNat < 128)
    (hs : isAscii s) (hlen : s.length + 5 ≤ 2147483647) :
    writeInt32BE (write (alloc (1 + (4 + jsLength s + 1))) tag 0) ((4 + jsLength s + 1 : Nat) : Int) 1
      = .ok (c.toNat :: (int32Bytes ((4 + s.length + 1 : Nat) : Int)
              ++ List.replicate (s.length + 1) 0))
    ∧ write (c.toNat :: (int32Bytes ((4 + s.length + 1 : Nat) : Int)
              ++ List.replicate (s.length + 1) 0)) (s ++ "\x00") 5
      = c.toNat :: (int32Bytes ((4 + s.length + 1 : Nat) : Int) ++ (utf8Encode s ++ [0])) := by
  have htagA : isAscii tag := by
    intro x hx; rw [htag] at hx; simp at hx; rw [hx]; exact hc
  have htagL : tag.length = 1 := by
    show tag.data.length = 1; rw [htag]; rfl
  have htagE : utf8Encode tag = [c.toNat] := by
    unfold utf8Encode; rw [htag]; simp [utf8EncodeChar_ascii c hc]
  have hz : isAscii "\x00" := by
    intro x hx
    have : x = Char.ofNat 0 := by simpa using hx
    rw [this]; decide
  have hsz : isAscii (s ++ "\x00") := isAscii_append s _ hs hz
  have hszL : (s ++ "\x00").length = s.length + 1 := by
    rw [String.length_append]; rfl
  have hszE : utf8Encode (s ++ "\x00") = utf8Encode s ++ [0] := by
    rw [utf8Encode_append]; rfl
  have hsE : (utf8Encode s).length = s.length := utf8Encode_length_ascii s hs
  rw [jsLength_ascii s hs]
  constructor
  · rw [write_ascii _ tag 0 htagA (by simp [alloc, htagL]), htagE, htagL]
    unfold writeInt32BE
    rw [if_neg (by simp [alloc]; omega)]
    congr 1
    simp [alloc, List.take_replicate, List.drop_replicate]
    omega
  · rw [write_ascii _ (s ++ "\x00") 5 hsz (by simp [int32Bytes_length, hszL]; omega), hszE, hszL]
    have h5 : (c.toNat :: (int32Bytes ((4 + s.length + 1 : Nat) : Int)
        ++ List.replicate (s.length + 1) 0)).take 5
        = c.toNat :: int32Bytes ((4 + s.length + 1 : Nat) : Int) := by
      simp [int32Bytes]
    have hd : (c.toNat :: (int32Bytes ((4 + s.length + 1 : Nat) : Int)
        ++ List.replicate (s.length + 1) 0)).drop (5 + (s.length + 1)) = [] := by
      apply List.drop_eq_nil_of_le
      simp [int32Bytes_length]; omega
    rw [h5, hd]
    simp

/-- For ASCII text `query` builds the message the protocol asks for. -/
theorem queryBuffer_ascii (text : String) (h : isAscii text) (hlen : text.length + 5 ≤ 2147483647) :
    queryBuffer text
      = .ok (81 :: (int32Bytes ((4 + text.length + 1 : Nat) : Int) ++ (utf8Encode text ++ [0]))) := by
  obtain ⟨h1, h2⟩ := tagged_message "Q" text 'Q' rfl (by decide) h hlen
  unfold queryBuffer
  show (do
    let buffer ← writeInt32BE (write (alloc (1 + (4 + jsLength text + 1))) "Q" 0)
      ((4 + jsLength text + 1 : Nat) : Int) 1
    pure (write buffer (text ++ "\x00") 5)) = _
  rw [h1]
  show Except.ok (write _ (text ++ "\x00") 5) = _
  rw [h2]
  rfl

/-- C5, evaluated where it fails: for the text "é" (one UTF-16 code unit,
two UTF-8 bytes) `query` allocates by `text.length`, writes the length 6 and
a 7-byte message whose last byte is the second byte of "é": the zero
terminator is cut off.  The message the claim describes has length field 7
and 8 bytes. -/
theorem query_non_ascii_text :
    queryBuffer "é" = .ok [81, 0, 0, 0, 6, 195, 169]
    ∧ utf8Encode "é" = [195, 169] ∧ jsLength "é" = 1
    ∧ queryBuffer "é"
        ≠ .ok (81 :: (int32Bytes (4 + (utf8Encode "é").length + 1) ++ (utf8Encode "é" ++ [0]))) := by
  refine ⟨rfl, rfl, rfl, ?_⟩
  rw [show queryBuffer "é" = .ok [81, 0, 0, 0, 6, 195, 169] from rfl]
  intro h
  exact absurd (Except.ok.inj h) (by decide)

/-- C7, evaluated where it fails: for the user "josé" (4 code units, 5 UTF-8
bytes) `_startup` allocates by `params.length`; the 37-byte message ends
after the terminator of the database name: the final zero byte that closes
the parameter list is cut off.  For the configuration of `App.js` the
message is the 41 bytes the claim describes. -/
theorem startup_non_ascii_user :
    startupBuffer { demoConfig with user := "josé" }
      = .ok ([0, 0, 0, 37, 0, 3, 0, 0] ++ utf8Encode "user" ++ [0] ++ utf8Encode "josé" ++ [0]
          ++ utf8Encode "database" ++ [0] ++ utf8Encode "postgres" ++ [0])
    ∧ startupBuffer { demoConfig with user := "josé" }
      ≠ .ok ([0, 0, 0, 38, 0, 3, 0, 0] ++ utf8Encode "user" ++ [0] ++ utf8Encode "josé" ++ [0]
          ++ utf8Encode "database" ++ [0] ++ utf8Encode "postgres" ++ [0, 0])
    ∧ startupBuffer demoConfig
      = .ok ([0, 0, 0, 41, 0, 3, 0, 0] ++ utf8Encode "user" ++ [0] ++ utf8Encode "postgres" ++ [0]
          ++ utf8Encode "database" ++ [0] ++ utf8Encode "postgres" ++ [0, 0]) := by
  refine ⟨rfl, ?_, rfl⟩
  rw [show startupBuffer { demoConfig with user := "josé" }
    = .ok ([0, 0, 0, 37, 0, 3, 0, 0] ++ utf8Encode "user" ++ [0] ++ utf8Encode "josé" ++ [0]
        ++ utf8Encode "database" ++ [0] ++ utf8Encode "postgres" ++ [0]) from rfl]
  intro h
  exact absurd (Except.ok.inj h) (by decide)

/-- C6: on an authentication request with challenge code 5 and a 4-byte salt,
`_password` writes exactly one buffer: 'p', the length 40, the 35 ASCII bytes
of "md5" followed by the hex digest of (hex digest of password and user,
then the salt), and a zero byte, 41 bytes in all; on challenge code 0 it
writes nothing.  MD5 is any function whose hex digest has 32 ASCII
characters; the driver is one that has its socket, as any driver that
receives a message has. -/
theorem password_response (env : Env) (d : Driver) (config : Config) (pre salt post : List Nat)
    (hcfg : d.config = some config) (hsock : d.socketCreated = true) (hsalt : salt.length = 4)
    (hmd5 : ∀ bytes, (env.md5hex bytes).length = 32 ∧ isAscii (env.md5hex bytes)) :
    (d.data = pre ++ (int32Bytes 5 ++ (salt ++ post)) →
      _password env pre.length d
        = (socketWrite (112 :: ([0, 0, 0, 40] ++ (utf8Encode ("md5" ++ env.md5hex
            (utf8Encode (env.md5hex (utf8Encode (config.password ++ config.user))) ++ salt))
            ++ [0]))) d, .normal)
      ∧ (112 :: ([0, 0, 0, 40] ++ (utf8Encode ("md5" ++ env.md5hex
            (utf8Encode (env.md5hex (utf8Encode (config.password ++ config.user))) ++ salt))
            ++ [0]))).length = 41)
    ∧ (d.data = pre ++ (int32Bytes 0 ++ post) → _password env pre.length d = (d, .normal)) := by
  constructor
  · intro hdata
    have hread : readInt32BE d.data (pre.length : Nat) = .ok 5 :=
      readInt32BE_at d.data pre (salt ++ post) 5 (by omega) hdata
    have hslice : slice d.data (pre.length + 4) (pre.length + 4 + 4) = salt := by
      have := slice_at d.data (pre ++ int32Bytes 5) salt post (by rw [hdata]; simp)
      simpa [int32Bytes_length, hsalt] using this
    obtain ⟨hL, hA⟩ := hmd5
      (utf8Encode (env.md5hex (utf8Encode (config.password ++ config.user))) ++ salt)
    have hpwdA : isAscii ("md5" ++ env.md5hex
        (utf8Encode (env.md5hex (utf8Encode (config.password ++ config.user))) ++ salt)) :=
      isAscii_append _ _ (by unfold isAscii; decide) hA
    have hpwdL : ("md5" ++ env.md5hex
        (utf8Encode (env.md5hex (utf8Encode (config.password ++ config.user))) ++ salt)).length
        = 35 := by
      rw [String.length_append, hL]; rfl
    obtain ⟨h1, h2⟩ := tagged_message "p" _ 'p' rfl (by decide) hpwdA (by rw [hpwdL]; decide)
    rw [hpwdL] at h1 h2
    have h40 : int32Bytes ((4 + 35 + 1 : Nat) : Int) = [0, 0, 0, 40] := by decide
    rw [h40] at h1 h2
    constructor
    · unfold _password
      simp only [hread, hslice, hcfg, if_true, if_false, h1, h2]
      unfold socketSend
      rw [if_pos hsock]
      rfl
    · simp [utf8Encode_length_ascii _ hpwdA, hpwdL]
  · intro hdata
    have hread : readInt32BE d.data (pre.length : Nat) = .ok 0 :=
      readInt32BE_at d.data pre post 0 (by omega) hdata
    unfold _password
    simp only [hread, if_true]

/-- Witness of `password_response`: the request `R 0 0 0 12 | 5 | salt 1 2 3 4`
for the configuration of `App.js`, on the driver as `connect` and the
"connect" event leave it. -/
theorem password_response_witness :
    _password demoEnv 5
        { session demoConfig 1 [] with data := [82, 0, 0, 0, 12, 0, 0, 0, 5, 1, 2, 3, 4] }
      = (socketWrite (112 :: ([0, 0, 0, 40]
            ++ (utf8Encode ("md5" ++ "d41d8cd98f00b204e9800998ecf8427e") ++ [0])))
          { session demoConfig 1 [] with data := [82, 0, 0, 0, 12, 0, 0, 0, 5, 1, 2, 3, 4] },
        .normal) :=
  ((password_response demoEnv
    { session demoConfig 1 [] with data := [82, 0, 0, 0, 12, 0, 0, 0, 5, 1, 2, 3, 4] }
    demoConfig [82, 0, 0, 0, 12] [1, 2, 3, 4] [] (by decide) (by decide) rfl
    (fun _ => ⟨show "d41d8cd98f00b204e9800998ecf8427e".length = 32 by decide,
      show isAscii "d41d8cd98f00b204e9800998ecf8427e" by unfold isAscii; decide⟩)).1 (by decide)).1

/-- C8, as stated, fails: an authentication request with challenge code 3
(clear-text password), received after `connect` and the "connect" event, is
skipped: the parse completes normally, no continuation is called with an
error (the only call is the success reported at the "connect" event) and
nothing but the startup message has been written. -/
theorem unsupported_auth_is_ignored :
    (parser demoEnv 5 [82, 0, 0, 0, 8, 0, 0, 0, 3] (session demoConfig 1 [])).completion = .normal
    ∧ (parser demoEnv 5 [82, 0, 0, 0, 8, 0, 0, 0, 3] (session demoConfig 1 [])).state.invoked
        = [{ callback := 1, err := none, res := some (.text "Connection successful.") }]
    ∧ (parser demoEnv 5 [82, 0, 0, 0, 8, 0, 0, 0, 3] (session demoConfig 1 [])).state.written
        = (session demoConfig 1 []).written := by
  decide

/-- C8, amended: for every authentication request whose challenge code is
neither 0 nor 5, `_password` returns normally and leaves the driver as it
was: no continuation is called and no password response is written. -/
theorem unsupported_auth_no_effect (env : Env) (d : Driver) (pre post : List Nat) (code : Int)
    (hrange : -2147483648 ≤ code ∧ code ≤ 2147483647) (h0 : code ≠ 0) (h5 : code ≠ 5)
    (hdata : d.data = pre ++ (int32Bytes code ++ post)) :
    _password env pre.length d = (d, .normal) := by
  have hread : readInt32BE d.data (pre.length : Nat) = .ok code :=
    readInt32BE_at d.data pre post code hrange hdata
  unfold _password
  simp only [hread]
  rw [if_neg h0, if_neg h5]

/-- Witness of `unsupported_auth_no_effect`: challenge code 3. -/
theorem unsupported_auth_no_effect_witness :
    _password demoEnv 5 { new with data := [82, 0, 0, 0, 8, 0, 0, 0, 3] }
      = ({ new with data := [82, 0, 0, 0, 8, 0, 0, 0, 3] }, .normal) :=
  unsupported_auth_no_effect demoEnv { new with data := [82, 0, 0, 0, 8, 0, 0, 0, 3] }
    [82, 0, 0, 0, 8] [] 3 (by decide) (by decide) (by decide) (by decide)

/-! ## Error messages -/

/-- The fields of an error message that is the first message of a delivery
are parsed into the mapping they denote. -/
theorem _errorLoop_first (data : Buffer) (fs : List (Nat × List Nat)) (post : List Nat) (k : Nat)
    (hfs : wellFormedFields fs) (hdata : data = frameBytes (errorFrame fs) ++ post) :
    _errorLoop data (((errorFrame fs).payload.length : Int) + 4) (fs.length + 1 + k) 5 ErrObj.empty
      = some (errorOf fs ErrObj.empty) := by
  have h := _errorLoop_spec data fs
    (69 :: int32Bytes (((errorFrame fs).payload.length : Int) + 4)) (0 :: post) ErrObj.empty k
    (fun f hf => ⟨(hfs f hf).1, by have := (hfs f hf).2.1; omega, (hfs f hf).2.2⟩)
    (by rw [hdata]; simp [frameBytes, errorFrame])
  have e1 : (69 :: int32Bytes (((errorFrame fs).payload.length : Int) + 4)).length = 5 := by
    simp [int32Bytes_length]
  have e2 : ((5 + (errorFieldBytes fs).length : Nat) : Int)
      = ((errorFrame fs).payload.length : Int) + 4 := by
    simp [errorFrame]; omega
  rw [e1, e2] at h
  exact h

/-- `_error` on an error message that is the first message of a delivery. -/
theorem _error_first (d : Driver) (fs : List (Nat × List Nat)) (post : List Nat) (k : Nat)
    (active : Option Callback) (hactive : d.callback = active)
    (hfs : wellFormedFields fs) (hdata : d.data = frameBytes (errorFrame fs) ++ post) :
    _error (fs.length + 1 + k) 5 (((errorFrame fs).payload.length : Int) + 4) d
      = if (errorOf fs ErrObj.empty).severity = some "ERROR"
            ∨ (errorOf fs ErrObj.empty).severity = some "FATAL" then
          match active with
          | none => (d, .throw .typeError)
          | some cb => (invoke cb (some (.server (errorOf fs ErrObj.empty))) none d, .normal)
        else (d, .normal) := by
  have h := _errorLoop_first d.data fs post k hfs hdata
  unfold _error
  rw [show ({ code := none, message := none, severity := none } : ErrObj) = ErrObj.empty from rfl, h,
    hactive]

/-- C9, as stated, fails: with one query queued behind `connect`, after the
"connect" event the error message (FATAL, 28P01) reaches no continuation:
the connect continuation has its one call, the success reported at the
"connect" event, and the queued query stays in the queue, its continuation
uncalled. -/
theorem handshake_error_reaches_no_continuation :
    (parser demoEnv 5 fatalAuthError
        (session demoConfig 1 [("select * from customers", 2)])).state.invoked
      = [{ callback := 1, err := none, res := some (.text "Connection successful.") }]
    ∧ (parser demoEnv 5 fatalAuthError
        (session demoConfig 1 [("select * from customers", 2)])).state.queryQueue.map
          (fun e => e.callback) = [2] := by
  decide

/-- C9, amended: after `connect(config, cb)` and the "connect" event, `cb`
has been called exactly once, with a null error and "Connection
successful."; when the first message received is then an error message of
severity FATAL (of any code, 28P01 included), no continuation is called for
it (`cb` is not called again, no queued query's continuation is called) and
the queries queued behind the connect stay queued. -/
theorem handshake_error_calls_nothing (env : Env) (config : Config) (cb : Callback)
    (early : List (String × Callback)) (fs : List (Nat × List Nat)) (k : Nat)
    (hfs : wellFormedFields fs) (hlen : (errorFrame fs).payload.length + 4 ≤ 2147483647)
    (hsev : (errorOf fs ErrObj.empty).severity = some "FATAL") :
    (parser env (fs.length + 2 + k) (frameBytes (errorFrame fs))
        (session config cb early)).state.invoked
      = [{ callback := cb, err := none, res := some (.text "Connection successful.") }]
    ∧ (parser env (fs.length + 2 + k) (frameBytes (errorFrame fs))
        (session config cb early)).state.queryQueue = (session config cb early).queryQueue
    ∧ queueBuffers (parser env (fs.length + 2 + k) (frameBytes (errorFrame fs))
        (session config cb early)).state = submitted early := by
  obtain ⟨_, hq, hcb, hinv, _⟩ := session_spec config cb early
  have herr := _error_first { session config cb early with data := frameBytes (errorFrame fs) }
    fs [] k none hcb hfs (by simp)
  rw [if_pos (Or.inr hsev)] at herr
  have hstep := parserLoop_step_abort env (frameBytes (errorFrame fs)) (fs.length + 1 + k)
    { session config cb early with data := frameBytes (errorFrame fs) }
    { session config cb early with data := frameBytes (errorFrame fs) }
    (.throw .typeError) [] [] [] (errorFrame fs) (by simp) hlen (by simp [errorFrame])
    (by rw [show (errorFrame fs).type = 69 from rfl, dispatch_E]; exact herr)
    (by simp)
  have hf : fs.length + 2 + k = fs.length + 1 + k + 1 := by omega
  unfold parser
  rw [hf]
  have hrun : parserLoop env (frameBytes (errorFrame fs)) (fs.length + 1 + k + 1)
      { session config cb early with data := frameBytes (errorFrame fs) } 0 [] = _ := hstep
  rw [hrun]
  exact ⟨hinv, rfl, hq⟩

/-- Witness of `handshake_error_calls_nothing`: the message (FATAL, 28P01)
with one query queued. -/
theorem handshake_error_calls_nothing_witness :
    (parser demoEnv 5 (frameBytes (errorFrame [(83, [70, 65, 84, 65, 76]), (67, [50, 56, 80, 48, 49])]))
        (session demoConfig 1 [("select * from customers", 2)])).state.invoked
      = [{ callback := 1, err := none, res := some (.text "Connection successful.") }] :=
  (handshake_error_calls_nothing demoEnv demoConfig 1 [("select * from customers", 2)]
    [(83, [70, 65, 84, 65, 76]), (67, [50, 56, 80, 48, 49])] 1
    (by unfold wellFormedFields; decide) (by decide) (by decide)).1

/-- C16: with an active continuation bound, for every well-formed error or
notice message placed first in a delivery, `_error` calls the continuation,
with the parsed mapping, exactly when the parsed severity is "ERROR" or
"FATAL"; otherwise it calls nothing; in both cases the queue and the
readiness flag are as before. -/
theorem severity_gating (d : Driver) (cb : Callback) (fs : List (Nat × List Nat))
    (post : List Nat) (k : Nat) (hcb : d.callback = some cb) (hfs : wellFormedFields fs)
    (hdata : d.data = frameBytes (errorFrame fs) ++ post) :
    ((errorOf fs ErrObj.empty).severity = some "ERROR"
        ∨ (errorOf fs ErrObj.empty).severity = some "FATAL" →
      _error (fs.length + 1 + k) 5 (((errorFrame fs).payload.length : Int) + 4) d
        = (invoke cb (some (.server (errorOf fs ErrObj.empty))) none d, .normal))
    ∧ (¬ ((errorOf fs ErrObj.empty).severity = some "ERROR"
        ∨ (errorOf fs ErrObj.empty).severity = some "FATAL") →
      _error (fs.length + 1 + k) 5 (((errorFrame fs).payload.length : Int) + 4) d = (d, .normal))
    ∧ (_error (fs.length + 1 + k) 5 (((errorFrame fs).payload.length : Int) + 4) d).1.queryQueue
        = d.queryQueue
    ∧ (_error (fs.length + 1 + k) 5 (((errorFrame fs).payload.length : Int) + 4) d).1.isReadyForQuery
        = d.isReadyForQuery := by
  have h := _error_first d fs post k (some cb) hcb hfs hdata
  simp only [] at h
  by_cases hs : (errorOf fs ErrObj.empty).severity = some "ERROR"
      ∨ (errorOf fs ErrObj.empty).severity = some "FATAL"
  · rw [if_pos hs] at h
    exact ⟨fun _ => h, fun hn => absurd hs hn, by rw [h]; rfl, by rw [h]; rfl⟩
  · rw [if_neg hs] at h
    exact ⟨fun hp => absurd hp hs, fun _ => h, by rw [h], by rw [h]⟩

/-- Witness of `severity_gating`: a notice (severity NOTICE) calls nothing,
an error (severity ERROR) calls the continuation. -/
theorem severity_gating_witness :
    _error 3 5 17
        { new with callback := some 7,
                   data := frameBytes (errorFrame [(83, [78, 79, 84, 73, 67, 69]), (77, [104, 105])]) }
      = ({ new with callback := some 7,
                    data := frameBytes (errorFrame [(83, [78, 79, 84, 73, 67, 69]), (77, [104, 105])]) },
          .normal) :=
  (severity_gating
    { new with callback := some 7,
               data := frameBytes (errorFrame [(83, [78, 79, 84, 73, 67, 69]), (77, [104, 105])]) }
    7 [(83, [78, 79, 84, 73, 67, 69]), (77, [104, 105])] [] 0 rfl
    (by unfold wellFormedFields; decide) (by simp)).2.1 (by decide)

/-- C12, evaluated where it fails: the error message (ERROR, 42601, "syntax
error") that follows a row description and a data row in the same delivery
starts at offset 51, past its own length 33, so the loop `while (start <
length)` of `_error` does not run: the mapping stays empty and the active
continuation is never told, although the same message placed first in a
delivery is parsed and reported. -/
theorem error_after_rows_is_lost :
    (parser demoEnv 5 errorAfterRows { new with callback := some 7 }).completion = .normal
    ∧ (parser demoEnv 5 errorAfterRows { new with callback := some 7 }).state.invoked = []
    ∧ _errorLoop errorAfterRows 33 5 51 ErrObj.empty = some ErrObj.empty
    ∧ (parser demoEnv 5 (frameBytes syntaxError) { new with callback := some 7 }).state.invoked
        = [{ callback := 7,
             err := some (.server { code := some "42601", message := some "syntax error",
                                    severity := some "ERROR" }),
             res := none }] := by
  decide

/-! ## Completion of a query -/

/-- A delivery of command-complete messages closed by a ready-for-query:
each command-complete calls the active continuation. -/
theorem parserLoop_commands (env : Env) (data : Buffer) (cb : Callback) (z : Nat)
    (tags : List (List Nat)) :
    ∀ (d : Driver) (pre : List Nat) (seen : List Frame) (k : Nat),
      d.callback = some cb → d.socketCreated = true → (∀ e ∈ d.queryQueue, e.buffer ≠ none) →
      z < 256 → (∀ st ∈ tags, 0 ∉ st ∧ st.length + 5 ≤ 2147483647) →
      data = pre ++ stream (tags.map commandFrame ++ [readyFrame z]) →
      (parserLoop env data (tags.length + 1 + k) d (pre.length : Nat) seen).completion = .normal
      ∧ (parserLoop env data (tags.length + 1 + k) d (pre.length : Nat) seen).state.invoked
        = d.invoked ++ tags.map (fun st =>
            { callback := cb, err := none,
              res := some (.results { d.results with status := utf8Decode st }) }) := by
  induction tags with
  | nil =>
    intro d pre seen k hcb hsk hq hz _ hdata
    have hnormal : (onReadyForQuery d).2 = .normal := by
      unfold onReadyForQuery
      cases h0 : d.queryQueue with
      | nil => rfl
      | cons next tl =>
        cases hb : next.buffer with
        | none => exact absurd hb (hq next (by rw [h0]; simp))
        | some buffer =>
          simp only [hb]
          rw [if_pos (show ({ d with isReadyForQuery := false, queryQueue := tl } : Driver).socketCreated
            = true from hsk)]
    have hdisp : dispatch env k data (readyFrame z).type (pre.length + 5)
        (((readyFrame z).payload.length : Int) + 4) d
        = ((onReadyForQuery d).1, .normal) := by
      rw [show (readyFrame z).type = 90 from rfl, dispatch_Z, emitReadyForQuery_socket d hsk]
      exact Prod.ext rfl hnormal
    have hstep := parserLoop_step_last env data k d (onReadyForQuery d).1 seen pre (readyFrame z)
      (by rw [hdata]; simp [stream]) (by simp [readyFrame]) (by simp [readyFrame]) hdisp
    have hf : ([] : List (List Nat)).length + 1 + k = k + 1 := by simp; omega
    rw [hf, hstep]
    refine ⟨rfl, ?_⟩
    simp only [List.map_nil, List.append_nil]
    rcases onReadyForQuery_cases d hsk with ⟨_, h⟩ | ⟨_, _, _, _, h⟩ | ⟨_, _, _, _, _, h⟩
    · rw [h]
    · rw [h]
    · rw [h]; rfl
  | cons st tags ih =>
    intro d pre seen k hcb hsk hq hz htags hdata
    obtain ⟨hst, hlen⟩ := htags st (by simp)
    have htags2 : ∀ x ∈ tags, 0 ∉ x ∧ x.length + 5 ≤ 2147483647 :=
      fun x hx => htags x (by simp [hx])
    have hd2 : data = pre ++ (frameBytes (commandFrame st)
        ++ stream (tags.map commandFrame ++ [readyFrame z])) := by
      rw [hdata]; simp [stream]
    have hcc := commandComplete_at data d
      (pre ++ (67 :: int32Bytes (((commandFrame st).payload.length : Int) + 4))) st
      (stream (tags.map commandFrame ++ [readyFrame z])) (some cb) hcb hst
      (by rw [hd2]; simp [frameBytes, commandFrame])
    simp only [] at hcc
    have hoff : (pre ++ (67 :: int32Bytes (((commandFrame st).payload.length : Int) + 4))).length
        = pre.length + 5 := by
      simp [int32Bytes_length]
    rw [hoff] at hcc
    have hpost : stream (tags.map commandFrame ++ [readyFrame z]) ≠ [] := by
      intro h
      have := (stream_eq_nil _).mp h
      simp at this
    have hstep := parserLoop_step_normal env data (tags.length + 1 + k) d _ seen pre _
      (commandFrame st) hd2 (by simp [commandFrame]; omega) (by simp [commandFrame])
      (by rw [show (commandFrame st).type = 67 from rfl, dispatch_C]; exact hcc) hpost
    have hf : (st :: tags).length + 1 + k = tags.length + 1 + k + 1 := by simp; omega
    rw [hf, hstep]
    obtain ⟨i1, i2⟩ := ih
      (invoke cb none (some (.results { d.results with status := utf8Decode st }))
        { d with results := { d.results with status := utf8Decode st } })
      (pre ++ frameBytes (commandFrame st)) (seen ++ [commandFrame st]) k hcb hsk hq hz htags2
      (by rw [hd2]; simp)
    refine ⟨i1, ?_⟩
    rw [i2]
    simp [invoke]

/-- C10, as stated, fails: with the query "select 1" in flight, a delivery
of a ready-for-query alone calls its continuation zero times, and a delivery
of two command-complete messages and a ready-for-query calls it twice. -/
theorem completion_not_exactly_once :
    inFlight.callback = some 2
    ∧ timesInvoked 2 (parser demoEnv 5 (stream [readyFrame 73]) inFlight).state = 0
    ∧ timesInvoked 2 (parser demoEnv 5
        (stream [commandFrame (utf8Encode "SELECT 1"), commandFrame (utf8Encode "SELECT 1"),
          readyFrame 73]) inFlight).state = 2 := by
  decide

/-- C10, amended: for a query written to the transport (the driver has its
socket, the query's continuation is the active one and the queue holds
queries only), a delivery made of n command-complete messages closed by a
ready-for-query calls the continuation exactly n times, each time with a
null error and the result carrying that message's status: once only when
n = 1, never when the ready-for-query comes alone. -/
theorem completion_once_per_command (env : Env) (d : Driver) (cb : Callback) (z k : Nat)
    (tags : List (List Nat))
    (hcb : d.callback = some cb) (hsock : d.socketCreated = true)
    (hq : ∀ e ∈ d.queryQueue, e.buffer ≠ none) (hz : z < 256)
    (htags : ∀ st ∈ tags, 0 ∉ st ∧ st.length + 5 ≤ 2147483647) :
    (parser env (tags.length + 1 + k) (stream (tags.map commandFrame ++ [readyFrame z])) d).completion
      = .normal
    ∧ (parser env (tags.length + 1 + k)
        (stream (tags.map commandFrame ++ [readyFrame z])) d).state.invoked
      = d.invoked ++ tags.map (fun st =>
          { callback := cb, err := none,
            res := some (.results { d.results with status := utf8Decode st }) }) := by
  have h := parserLoop_commands env (stream (tags.map commandFrame ++ [readyFrame z])) cb z tags
    { d with data := stream (tags.map commandFrame ++ [readyFrame z]) } [] [] k hcb hsock hq hz
    htags (by simp)
  exact h

/-- Witness of `completion_once_per_command`: one command-complete for the
query "select 1" in flight on a connected driver. -/
theorem completion_once_per_command_witness :
    (parser demoEnv 2 (stream ([[83, 69, 76, 69, 67, 84, 32, 49]].map commandFrame ++ [readyFrame 73]))
        inFlight).completion = .normal
    ∧ (parser demoEnv 2 (stream ([[83, 69, 76, 69, 67, 84, 32, 49]].map commandFrame ++ [readyFrame 73]))
        inFlight).state.invoked
      = inFlight.invoked ++ [[83, 69, 76, 69, 67, 84, 32, 49]].map (fun st =>
          { callback := 2, err := none,
            res := some (.results { inFlight.results with status := utf8Decode st }) }) :=
  completion_once_per_command demoEnv inFlight 2 73 0
    [[83, 69, 76, 69, 67, 84, 32, 49]] (by decide) (by decide) (by decide) (by decide)
    (by intro st hst; simp at hst; subst hst; decide)

/-! ## Closing, and headers with a short length -/

/-- C11, as stated, fails: with one query queued and not yet written,
`close()` writes the terminate message and ends the socket, but calls no
continuation and leaves the query in the queue. -/
theorem close_leaves_queued_query :
    (close (session demoConfig 1 [("select * from customers", 2)])).1.written
      = (session demoConfig 1 [("select * from customers", 2)]).written ++ [[88, 0, 0, 0, 4]]
    ∧ (close (session demoConfig 1 [("select * from customers", 2)])).1.invoked
      = [{ callback := 1, err := none, res := some (.text "Connection successful.") }]
    ∧ (close (session demoConfig 1 [("select * from customers", 2)])).1.queryQueue.map
        (fun e => e.callback) = [2] := by
  decide

/-- C11, amended: for every state of a driver whose socket exists (queued
queries or not), `close()` hands the 5 bytes 'X', 0, 0, 0, 4 to `socket.end`
and changes nothing else: no continuation is called and the queue keeps its
entries. -/
theorem close_writes_terminate (d : Driver) (h : d.socketCreated = true) :
    close d = ({ d with written := d.written ++ [[88, 0, 0, 0, 4]], ended := true }, .normal) := by
  have hb : writeInt32BE (write (alloc (1 + 4)) "X" 0) 4 1 = .ok [88, 0, 0, 0, 4] := rfl
  unfold close
  simp only [hb]
  rw [if_pos h]
  rfl

/-- Witness of `close_writes_terminate`: a connected driver with a queued
query. -/
theorem close_writes_terminate_witness :
    (close (session demoConfig 1 [("select * from customers", 2)])).2 = .normal :=
  congrArg Prod.snd
    (close_writes_terminate (session demoConfig 1 [("select * from customers", 2)]) (by decide))

/-- A header with an unhandled tag and a length below 4 at the start of a
delivery: the loop goes on at cursor 1 + length. -/
theorem parserLoop_short_length (env : Env) (fuel : Nat) (d : Driver) (tag : Nat) (L : Int)
    (rest : List Nat) (seen : List Frame)
    (htag : tag < 256 ∧ tag ≠ 82 ∧ tag ≠ 69 ∧ tag ≠ 90 ∧ tag ≠ 84 ∧ tag ≠ 68 ∧ tag ≠ 67)
    (hL : -2147483648 ≤ L ∧ L < 4) :
    parserLoop env (tag :: (int32Bytes L ++ rest)) (fuel + 1) d 0 seen
      = parserLoop env (tag :: (int32Bytes L ++ rest)) fuel d (1 + L)
          (seen ++ [{ type := tag, payload := [] }]) := by
  have hread : readInt32BE (tag :: (int32Bytes L ++ rest)) (0 + 1) = .ok L := by
    have := readInt32BE_at (tag :: (int32Bytes L ++ rest)) [tag] rest L ⟨hL.1, by omega⟩ rfl
    simpa using this
  have hty : fromCharCode (some tag) = tag := by
    simp [fromCharCode]; omega
  have hslice : slice (tag :: (int32Bytes L ++ rest)) 5 ((5 : Int) + (L - 4)).toNat = [] := by
    unfold slice
    have : ((5 : Int) + (L - 4)).toNat - 5 = 0 := by omega
    rw [this]; rfl
  have hlen : (tag :: (int32Bytes L ++ rest)).length = 5 + rest.length := by
    simp [int32Bytes_length]; omega
  rw [parserLoop]
  simp only [Int.lt_irrefl, if_false, Int.toNat_zero, List.getElem?_cons_zero, hty, hread]
  rw [show ((0 : Int) + 1 + 4).toNat = 5 from rfl, show ((0 : Int) + 1 + 4) = 5 from rfl, hslice,
    dispatch_other env fuel _ tag 5 L d htag.2]
  simp only []
  rw [if_pos (by rw [hlen]; omega)]
  congr 1
  omega

/-- C13, as stated, fails: the delivery `N 0 0 0 3 | 0 0 0 4`, whose first
header carries the length 3, is parsed to its end without any failure: after
the first header the cursor is 4, inside that header, and the loop takes a
second turn on the bytes it finds there.  On `N` with the length -1 the
cursor is back at 0 after every turn: forty turns later the loop still runs. -/
theorem short_length_is_no_framing_error :
    (parser demoEnv 10 [78, 0, 0, 0, 3, 0, 0, 0, 4] new).completion = .normal
    ∧ (parser demoEnv 10 [78, 0, 0, 0, 3, 0, 0, 0, 4] new).offset = 9
    ∧ (parser demoEnv 10 [78, 0, 0, 0, 3, 0, 0, 0, 4] new).dispatched
        = [{ type := 78, payload := [] }, { type := 3, payload := [] }]
    ∧ (parser demoEnv 40 [78, 255, 255, 255, 255] new).completion = .running
    ∧ (parser demoEnv 40 [78, 255, 255, 255, 255] new).offset = 0 := by
  decide

/-- C13, amended: when the first header of a delivery carries an unhandled
tag and a length below 4, `_parser` raises no failure at that header: the
loop goes on at cursor 1 + length, which is below 5 (inside the header, in
place for length -1 and backwards below that); for length -1 the loop is
back at cursor 0 with the driver unchanged, so it never terminates. -/
theorem short_length_continues (env : Env) (d : Driver) (tag : Nat) (L : Int) (rest : List Nat)
    (htag : tag < 256 ∧ tag ≠ 82 ∧ tag ≠ 69 ∧ tag ≠ 90 ∧ tag ≠ 84 ∧ tag ≠ 68 ∧ tag ≠ 67)
    (hL : -2147483648 ≤ L ∧ L < 4) :
    (∀ fuel seen, parserLoop env (tag :: (int32Bytes L ++ rest)) (fuel + 1) d 0 seen
      = parserLoop env (tag :: (int32Bytes L ++ rest)) fuel d (1 + L)
          (seen ++ [{ type := tag, payload := [] }]))
    ∧ (L = -1 → ∀ fuel, (parser env fuel (tag :: (int32Bytes L ++ rest)) d).completion = .running) := by
  refine ⟨fun fuel seen => parserLoop_short_length env fuel d tag L rest seen htag hL, ?_⟩
  intro hm fuel
  subst hm
  have key : ∀ (n : Nat) (seen : List Frame) (d2 : Driver),
      (parserLoop env (tag :: (int32Bytes (-1) ++ rest)) n d2 0 seen).completion = .running := by
    intro n
    induction n with
    | zero => intro seen d2; rfl
    | succ n ih =>
      intro seen d2
      rw [parserLoop_short_length env n d2 tag (-1) rest seen htag hL]
      exact ih _ d2
  exact key fuel [] _

/-- Witness of `short_length_continues`: the header `N` with length -1. -/
theorem short_length_continues_witness :
    (parser demoEnv 1000 (78 :: (int32Bytes (-1) ++ [])) new).completion = .running :=
  (short_length_continues demoEnv new 78 (-1) [] (by decide) (by decide)).2 rfl 1000

/-! ## Results across messages -/

/-- `_fields` on any row description laid out as the code walks it, empty
or not: the names and the resolved types are appended. -/
theorem _fields_appends (env : Env) (d : Driver) (es : List FieldEntry) (pre post : List Nat)
    (hn : es.length ≤ 32767)
    (hes : ∀ e ∈ es, 0 ∉ e.name ∧ e.skipped.length = 6 ∧ e.rest.length = 8
      ∧ -2147483648 ≤ e.oid ∧ e.oid ≤ 2147483647)
    (hdata : d.data = pre ++ (int16Bytes es.length ++ (es.flatMap fieldBytes ++ post))) :
    _fields env pre.length d
      = ({ d with results :=
            { d.results with fields := d.results.fields ++ es.map (fun e => utf8Decode e.name),
                             types := d.results.types ++ es.map (fun e => env.TYPES e.oid) } },
          .normal) := by
  cases es with
  | nil =>
    rw [_fields_zero env d pre post (by simpa using hdata)]
    simp
  | cons e es => exact _fields_spec env d (e :: es) pre post (by simp) hn hes hdata

/-- C14, evaluated where it fails: on a connected driver that has answered
"select 1", the second query "select 'x' as b" is written at once and its
continuation becomes the active one; the row description of its answer
leaves the fields ["?column?", "b"] and keeps the row of the first query,
`_rows` then names the value "x" by `results.fields[0]`, the field of the
first query, and the continuation of the second query receives the fields
and the row of the first query next to its own, its own value stored under
the name "?column?". -/
theorem second_result_holds_first_result :
    (parser demoEnv 10 select1Response inFlight).completion = .normal
    ∧ secondInFlight.callback = some 3
    ∧ secondInFlight.written.getLast? = (queryBuffer "select 'x' as b").toOption
    ∧ (parser demoEnv 10 secondDescription secondInFlight).state.results
        = { fields := ["?column?", "b"], types := [some "int4", some "text"],
            rows := [{ detached := false, props := [("?column?", some "1")] }],
            status := "SELECT 1" }
    ∧ (parser demoEnv 10 secondResponse secondInFlight).completion = .normal
    ∧ (parser demoEnv 10 secondResponse secondInFlight).state.invoked.getLast?
        = some { callback := 3, err := none,
                 res := some (.results
                   { fields := ["?column?", "b"], types := [some "int4", some "text"],
                     rows := [{ detached := false, props := [("?column?", some "1")] },
                              { detached := false, props := [("?column?", some "x")] }],
                     status := "SELECT 1" }) } := by
  decide

/-- C15, as stated, fails: a data row with the column count 0 is dropped:
the result has no row after it. -/
theorem empty_data_row_not_appended :
    (parser demoEnv 5 emptyDataRow new).completion = .normal
    ∧ (parser demoEnv 5 emptyDataRow new).state.results.rows = [] := by
  decide

/-- C15, amended: for every data row with a column count of at least 1,
`_rows` adds exactly one row after the rows already stored, which stay as
they were and in the same order; for the column count 0 it returns at once
and stores nothing. -/
theorem data_row_appended (d : Driver) (cols : List (Option (List Nat))) (pre post : List Nat)
    (hn : cols.length ≤ 32767) (hcols : ∀ v, some v ∈ cols → v.length ≤ 2147483647)
    (hdata : d.data = pre ++ (int16Bytes cols.length ++ (cols.flatMap columnBytes ++ post))) :
    (_rows pre.length d).2 = .normal
    ∧ (cols ≠ [] →
        (_rows pre.length d).1.results.rows
          = d.results.rows ++ [fillRow d.results.fields cols 0 Row.empty]
        ∧ (_rows pre.length d).1.results.rows.length = d.results.rows.length + 1)
    ∧ (cols = [] → (_rows pre.length d).1 = d) := by
  cases cols with
  | nil =>
    rw [_rows_zero d pre post (by simpa using hdata)]
    exact ⟨rfl, fun h => absurd rfl h, fun _ => rfl⟩
  | cons c cs =>
    rw [_rows_spec d (c :: cs) pre post (by simp) hn hcols hdata]
    exact ⟨rfl, fun _ => ⟨rfl, by simp⟩, fun h => by cases h⟩

/-- Witness of `data_row_appended`: the row ("1") after one stored row. -/
theorem data_row_appended_witness :
    (_rows 5
      { new with results := { fields := ["a"], types := [none], rows := [Row.empty], status := "" },
                 data := [68, 0, 0, 0, 11, 0, 1, 0, 0, 0, 1, 49] }).1.results.rows.length
      = [Row.empty].length + 1 :=
  ((data_row_appended
    { new with results := { fields := ["a"], types := [none], rows := [Row.empty], status := "" },
               data := [68, 0, 0, 0, 11, 0, 1, 0, 0, 0, 1, 49] }
    [some [49]] [68, 0, 0, 0, 11] [] (by decide)
    (by intro v hv; simp at hv; subst hv; decide) (by decide)).2.1 (by simp)).2

/-- C17, as stated, fails: on the row description of the fields "a" and "b"
laid out with 4 bytes of type size (the layout of the spec), `_fields`
stores the names ["a", ""] and the types of the OIDs it finds two bytes
early: the second name and type are not those received. -/
theorem spec_layout_misread :
    (parser demoEnv 5 specLayoutDescription new).completion = .normal
    ∧ (parser demoEnv 5 specLayoutDescription new).state.results.fields = ["a", ""]
    ∧ (parser demoEnv 5 specLayoutDescription new).state.results.types = [some "int4", none] := by
  decide

/-- C17, amended: for every row description carrying a field count n >= 0
and n entries laid out as null-terminated name, 4 + 2 skipped bytes, 4-byte
big-endian type OID, then 2 bytes of type size, 4 bytes of type modifier and
2 bytes of format code, `_fields` on a fresh result stores exactly the n
names in received order and, position by position, the type name the table
gives for each OID. -/
theorem row_description_layout (env : Env) (d : Driver) (es : List FieldEntry) (pre post : List Nat)
    (hfresh : d.results = { fields := [], types := [], rows := [], status := "" })
    (hn : es.length ≤ 32767)
    (hes : ∀ e ∈ es, 0 ∉ e.name ∧ e.skipped.length = 4 + 2 ∧ e.rest.length = 2 + 4 + 2
      ∧ -2147483648 ≤ e.oid ∧ e.oid ≤ 2147483647)
    (hdata : d.data = pre ++ (int16Bytes es.length ++ (es.flatMap fieldBytes ++ post))) :
    (_fields env pre.length d).2 = .normal
    ∧ (_fields env pre.length d).1.results.fields = es.map (fun e => utf8Decode e.name)
    ∧ (_fields env pre.length d).1.results.types = es.map (fun e => env.TYPES e.oid) := by
  rw [_fields_appends env d es pre post hn hes hdata, hfresh]
  exact ⟨rfl, by simp, by simp⟩

/-- Witness of `row_description_layout`: the fields "a" and "b". -/
theorem row_description_layout_witness :
    (_fields demoEnv 5
      { new with data := [84, 0, 0, 0, 46, 0, 2, 97, 0, 0, 0, 0, 0, 0, 1, 0, 0, 0, 23, 0, 4, 0, 0, 0,
          0, 0, 0, 98, 0, 0, 0, 0, 0, 0, 2, 0, 0, 0, 25, 255, 255, 0, 0, 0, 0, 0, 0] }).1.results.fields
      = [({ name := [97], skipped := [0, 0, 0, 0, 0, 1], oid := 23,
            rest := [0, 4, 0, 0, 0, 0, 0, 0] } : FieldEntry),
         { name := [98], skipped := [0, 0, 0, 0, 0, 2], oid := 25,
           rest := [255, 255, 0, 0, 0, 0, 0, 0] }].map (fun e => utf8Decode e.name) :=
  (row_description_layout demoEnv
    { new with data := [84, 0, 0, 0, 46, 0, 2, 97, 0, 0, 0, 0, 0, 0, 1, 0, 0, 0, 23, 0, 4, 0, 0, 0,
        0, 0, 0, 98, 0, 0, 0, 0, 0, 0, 2, 0, 0, 0, 25, 255, 255, 0, 0, 0, 0, 0, 0] }
    [{ name := [97], skipped := [0, 0, 0, 0, 0, 1], oid := 23, rest := [0, 4, 0, 0, 0, 0, 0, 0] },
     { name := [98], skipped := [0, 0, 0, 0, 0, 2], oid := 25, rest := [255, 255, 0, 0, 0, 0, 0, 0] }]
    [84, 0, 0, 0, 46] [] rfl (by decide) (by decide) (by decide)).2.1

theorem assign_length_new (k : String) (v : Option String) (props : List (String × Option String))
    (h : props.find? (fun kv => kv.1 = k) = none) : (assign k v props).length = props.length + 1 := by
  induction props with
  | nil => rfl
  | cons p ps ih =>
    obtain ⟨k2, v2⟩ := p
    by_cases h2 : k2 = k
    · subst h2; simp at h
    · have hps : ps.find? (fun kv => kv.1 = k) = none := by simpa [h2] using h
      simp [assign, h2, ih hps]

theorem Row.set_length_new (row : Row) (k : String) (v : Option String) (hk : k ≠ "__proto__")
    (h : row.get k = none) : (row.set k v).props.length = row.props.length + 1 := by
  have hf : row.props.find? (fun kv => kv.1 = k) = none := by
    unfold Row.get at h
    simpa using h
  unfold Row.set
  rw [if_neg (fun hc => hk hc.1)]
  exact assign_length_new k v row.props hf

/-- Distinct names give one property each. -/
theorem fillRow_length (fields : List String) (cols : List (Option (List Nat))) :
    ∀ (i : Nat) (row : Row),
      (∀ j, j < cols.length → propertyKey fields[i + j]? ≠ "__proto__"
        ∧ row.get (propertyKey fields[i + j]?) = none) →
      (∀ j1 j2, j1 < j2 → j2 < cols.length →
        propertyKey fields[i + j1]? ≠ propertyKey fields[i + j2]?) →
      (fillRow fields cols i row).props.length = row.props.length + cols.length := by
  induction cols with
  | nil => intro i row _ _; rfl
  | cons c cs ih =>
    intro i row hnew hdist
    obtain ⟨hk0, hg0⟩ := hnew 0 (by simp)
    simp only [Nat.add_zero] at hk0 hg0
    rw [fillRow, ih (i + 1) _ (fun j hj => by
        obtain ⟨hk, hg⟩ := hnew (j + 1) (by simp; omega)
        have hd := hdist 0 (j + 1) (by omega) (by simp; omega)
        simp only [Nat.add_zero] at hd
        rw [show i + 1 + j = i + (j + 1) by omega]
        exact ⟨hk, by rw [Row.get_set_other row _ _ _ hd]; exact hg⟩)
      (fun j1 j2 h1 h2 => by
        have := hdist (j1 + 1) (j2 + 1) (by omega) (by simp; omega)
        rw [show i + 1 + j1 = i + (j1 + 1) by omega, show i + 1 + j2 = i + (j2 + 1) by omega]
        exact this),
      Row.set_length_new row _ _ hk0 hg0]
    simp only [List.length_cons]
    omega

/-- C18, as stated, fails: after a row description of two fields both named
"?column?", the data row ("1", "2") is stored as an object with the single
property "?column?": "2", one value for two descriptors. -/
theorem repeated_name_loses_value :
    (parser demoEnv 5 twoUnnamedColumns new).state.results.fields = ["?column?", "?column?"]
    ∧ (parser demoEnv 5 twoUnnamedColumns new).state.results.rows
        = [{ detached := false, props := [("?column?", some "2")] }] := by
  decide

/-- C18, amended: for every row description with n >= 1 fields whose names
are pairwise different and none of which is `__proto__`, processed on a
result without fields, and every following data row with column count n,
the row appended by `_rows` has exactly n properties and holds under the
i-th field name the decoded value of the i-th column (null for length -1). -/
theorem row_values_match_fields (env : Env) (d : Driver) (es : List FieldEntry)
    (cols : List (Option (List Nat))) (pre mid post : List Nat)
    (hfresh : d.results.fields = [])
    (hne : es ≠ []) (hn : es.length ≤ 32767) (hsame : cols.length = es.length)
    (hes : ∀ e ∈ es, 0 ∉ e.name ∧ e.skipped.length = 6 ∧ e.rest.length = 8
      ∧ -2147483648 ≤ e.oid ∧ e.oid ≤ 2147483647)
    (hcols : ∀ v, some v ∈ cols → v.length ≤ 2147483647)
    (hnodup : (es.map (fun e => utf8Decode e.name)).Nodup)
    (hproto : "__proto__" ∉ es.map (fun e => utf8Decode e.name))
    (hdata : d.data = pre ++ (int16Bytes es.length ++ (es.flatMap fieldBytes
      ++ (mid ++ (int16Bytes cols.length ++ (cols.flatMap columnBytes ++ post)))))) :
    ∃ row,
      (_rows (pre ++ (int16Bytes es.length ++ (es.flatMap fieldBytes ++ mid))).length
          (_fields env pre.length d).1).2 = .normal
      ∧ (_rows (pre ++ (int16Bytes es.length ++ (es.flatMap fieldBytes ++ mid))).length
          (_fields env pre.length d).1).1.results.rows = d.results.rows ++ [row]
      ∧ row.props.length = es.length
      ∧ ∀ (i : Nat) (e : FieldEntry) (c : Option (List Nat)), es[i]? = some e → cols[i]? = some c →
          row.get (utf8Decode e.name) = some (c.map utf8Decode) := by
  have hF := _fields_spec env d es pre
    (mid ++ (int16Bytes cols.length ++ (cols.flatMap columnBytes ++ post))) hne hn hes hdata
  have hcne : cols ≠ [] := by
    intro h; rw [h] at hsame; exact hne (List.length_eq_zero.mp hsame.symm)
  rw [hF]
  simp only []
  have hR := _rows_spec
    { d with results :=
        { d.results with fields := d.results.fields ++ es.map (fun e => utf8Decode e.name),
                         types := d.results.types ++ es.map (fun e => env.TYPES e.oid) } }
    cols (pre ++ (int16Bytes es.length ++ (es.flatMap fieldBytes ++ mid))) post hcne
    (by omega) hcols (by show d.data = _; rw [hdata]; simp)
  rw [hR, hfresh]
  simp only [List.nil_append]
  have hdist : ∀ j1 j2, j1 < j2 → j2 < cols.length →
      propertyKey (es.map (fun e => utf8Decode e.name))[0 + j1]?
        ≠ propertyKey (es.map (fun e => utf8Decode e.name))[0 + j2]? := by
    intro j1 j2 h1 h2
    have hl : (es.map (fun e => utf8Decode e.name)).length = es.length := by simp
    have hne2 := (List.nodup_iff_getElem?_ne_getElem?.mp hnodup) j1 j2 h1 (by omega)
    have a1 : j1 < (es.map (fun e => utf8Decode e.name)).length := by omega
    have a2 : j2 < (es.map (fun e => utf8Decode e.name)).length := by omega
    rw [List.getElem?_eq_getElem a1, List.getElem?_eq_getElem a2] at hne2
    simp only [Nat.zero_add]
    rw [List.getElem?_eq_getElem a1, List.getElem?_eq_getElem a2]
    intro h
    exact hne2 (congrArg some h)
  have hnp : ∀ j, j < cols.length →
      propertyKey (es.map (fun e => utf8Decode e.name))[0 + j]? ≠ "__proto__" := by
    intro j hj
    have a1 : j < (es.map (fun e => utf8Decode e.name)).length := by simp; omega
    simp only [Nat.zero_add]
    rw [List.getElem?_eq_getElem a1]
    intro h
    exact hproto (h ▸ List.getElem_mem a1)
  refine ⟨fillRow (es.map (fun e => utf8Decode e.name)) cols 0 Row.empty,
    by first | rfl | trivial, rfl, ?_, ?_⟩
  · rw [fillRow_length _ cols 0 Row.empty (fun j hj => ⟨hnp j hj, rfl⟩) hdist]
    show 0 + cols.length = es.length
    omega
  · intro i e c he hc
    have hi : i < cols.length := by
      by_contra hcon
      rw [List.getElem?_eq_none (by omega)] at hc
      cases hc
    have hname : propertyKey (es.map (fun e => utf8Decode e.name))[0 + i]? = utf8Decode e.name := by
      simp [he, propertyKey]
    have := get_fillRow_at (es.map (fun e => utf8Decode e.name)) cols 0 Row.empty i c hc
      (hnp i hi) (fun j2 h1 h2 => (hdist i j2 h1 h2).symm)
    rw [hname] at this
    exact this

/-- Witness of `row_values_match_fields`: the fields "a", "b" and the data
row ("1", null) in one delivery. -/
theorem row_values_match_fields_witness :
    ∃ row : Row, row.props.length = 2 ∧ row.get "b" = some none :=
  have h := row_values_match_fields demoEnv
    { new with data := [84, 0, 0, 0, 46, 0, 2, 97, 0, 0, 0, 0, 0, 0, 1, 0, 0, 0, 23, 0, 4, 0, 0, 0,
        0, 0, 0, 98, 0, 0, 0, 0, 0, 0, 2, 0, 0, 0, 25, 255, 255, 0, 0, 0, 0, 0, 0,
        68, 0, 0, 0, 15, 0, 2, 0, 0, 0, 1, 49, 255, 255, 255, 255] }
    [{ name := [97], skipped := [0, 0, 0, 0, 0, 1], oid := 23, rest := [0, 4, 0, 0, 0, 0, 0, 0] },
     { name := [98], skipped := [0, 0, 0, 0, 0, 2], oid := 25, rest := [255, 255, 0, 0, 0, 0, 0, 0] }]
    [some [49], none] [84, 0, 0, 0, 46] [68, 0, 0, 0, 15] []
    rfl (by simp) (by decide) rfl (by decide)
    (by intro v hv; simp at hv; subst hv; decide) (by decide) (by decide) (by decide)
  h.elim fun row hr =>
    ⟨row, hr.2.2.1,
      hr.2.2.2 1 { name := [98], skipped := [0, 0, 0, 0, 0, 2], oid := 25,
                   rest := [255, 255, 0, 0, 0, 0, 0, 0] } none rfl rfl⟩

/-! ## Framing of a complete delivery -/

/-- Messages without a handler are skipped: the loop takes one turn per
message and leaves the driver as it was. -/
theorem parserLoop_skips (env : Env) (data : Buffer) (fs : List Frame) :
    ∀ (k : Nat) (d : Driver) (pre : List Nat) (seen : List Frame),
      fs ≠ [] → (∀ f ∈ fs, f.valid ∧ unhandled f.type) → data = pre ++ stream fs →
      parserLoop env data (fs.length + k) d (pre.length : Nat) seen
        = { state := d, completion := .normal, offset := (data.length : Nat),
            dispatched := seen ++ fs } := by
  induction fs with
  | nil => intro _ _ _ _ h; exact absurd rfl h
  | cons f fs ih =>
    intro k d pre seen _ hfs hdata
    obtain ⟨hval, hun⟩ := hfs f (by simp)
    have hfs2 : ∀ x ∈ fs, x.valid ∧ unhandled x.type := fun x hx => hfs x (by simp [hx])
    have hdisp : dispatch env (fs.length + k) data f.type (pre.length + 5)
        ((f.payload.length : Int) + 4) d = (d, .normal) :=
      dispatch_other env _ data f.type _ _ d hun
    have hf : (f :: fs).length + k = fs.length + k + 1 := by simp; omega
    rw [hf]
    by_cases hp : fs = []
    · subst hp
      rw [parserLoop_step_last env data _ d d seen pre f (by rw [hdata]; simp [stream]) hval.2
        (by have := hval.1; omega) hdisp]
    · have hpost : stream fs ≠ [] := fun h => hp ((stream_eq_nil fs).mp h)
      rw [parserLoop_step_normal env data _ d d seen pre (stream fs) f
        (by rw [hdata, stream_cons]) hval.2 (by have := hval.1; omega) hdisp hpost,
        ih k d (pre ++ frameBytes f) (seen ++ [f]) hp hfs2 (by rw [hdata, stream_cons]; simp)]
      simp

/-- The loop over complete messages returns normally exactly when every
handler call it makes returns normally. -/
theorem parserLoop_returns (env : Env) (data : Buffer) (fs : List Frame) :
    ∀ (fuel : Nat) (d : Driver) (pre : List Nat) (seen : List Frame),
      fs ≠ [] → (∀ f ∈ fs, f.valid) → data = pre ++ stream fs →
      ((parserLoop env data fuel d (pre.length : Nat) seen).completion = .normal
        ↔ handlersReturn env data fuel pre.length fs d = true) := by
  induction fs with
  | nil => intro _ _ _ _ h; exact absurd rfl h
  | cons f fs ih =>
    intro fuel d pre seen _ hval hdata
    have hf : f.valid := hval f (by simp)
    have hval2 : ∀ x ∈ fs, x.valid := fun x hx => hval x (by simp [hx])
    cases fuel with
    | zero => simp [parserLoop, handlersReturn]
    | succ fuel =>
      have hstep := parserLoop_step env data fuel d seen pre (stream fs) f
        (by rw [hdata, stream_cons]) hf.2 (by have := hf.1; omega)
      rw [hstep]
      simp only [handlersReturn]
      cases hc : (dispatch env fuel data f.type (pre.length + 5) ((f.payload.length : Int) + 4) d).2 with
      | normal =>
        simp only [decide_True, Bool.true_and]
        by_cases hp : stream fs = []
        · have hfs : fs = [] := (stream_eq_nil fs).mp hp
          rw [if_pos hp]
          subst hfs
          simp [handlersReturn]
        · have hfs : fs ≠ [] := fun h => hp ((stream_eq_nil fs).mpr h)
          rw [if_neg hp]
          have := ih fuel (dispatch env fuel data f.type (pre.length + 5)
            ((f.payload.length : Int) + 4) d).1 (pre ++ frameBytes f) (seen ++ [f]) hfs hval2
            (by rw [hdata, stream_cons]; simp)
          rw [this]
          simp [frameBytes_length]
          rw [show pre.length + (5 + f.payload.length) = pre.length + 5 + f.payload.length by omega]
      | throw e => simp
      | running => simp

/-- C19, as stated, fails: the delivery made of the one complete message
(FATAL, 28P01), received during the handshake, ends the loop inside its
first turn by an exception of the handler: the cursor stops at 5, not at the
delivery's length 52.  And on the delivery made of the one complete message
`unterminatedError` (length field 6, 7 bytes) the loop does not terminate:
whatever the fuel, the run is still inside `_error`. -/
theorem handler_exception_stops_framing :
    (parser demoEnv 5 fatalAuthError (session demoConfig 1 [])).completion = .throw .typeError
    ∧ (parser demoEnv 5 fatalAuthError (session demoConfig 1 [])).offset = 5
    ∧ fatalAuthError.length = 52
    ∧ (stream [unterminatedError]).length = 7
    ∧ (∀ fuel : Nat, (parser demoEnv fuel (stream [unterminatedError])
        (session demoConfig 1 [])).completion = .running) :=
  ⟨by decide, by decide, by decide, by decide,
    fun fuel => unterminated_error_never_returns demoEnv fuel (session demoConfig 1 [])⟩

/-- C19, amended: for every delivery that is the concatenation of k >= 1
complete messages, the run of `_parser` returns normally exactly when each
of the handler calls it makes returns normally (none throws and the loop of
`_error` ends); the loop has then taken exactly k turns, handing the k
messages to the `switch` in stream order, each to the handler of its tag,
and ends with the cursor equal to the delivery's length; and when no message
has a handled tag, k turns of fuel are enough for the run to end so, with
the driver unchanged but for `data`. -/
theorem framing_of_complete_delivery (env : Env) (fuel : Nat) (d : Driver) (fs : List Frame)
    (hne : fs ≠ []) (hval : ∀ f ∈ fs, f.valid) :
    ((parser env fuel (stream fs) d).completion = .normal
        ↔ handlersReturn env (stream fs) fuel 0 fs { d with data := stream fs } = true)
    ∧ (handlersReturn env (stream fs) fuel 0 fs { d with data := stream fs } = true →
      (parser env fuel (stream fs) d).completion = .normal
      ∧ (parser env fuel (stream fs) d).dispatched = fs
      ∧ (parser env fuel (stream fs) d).dispatched.length = fs.length
      ∧ (parser env fuel (stream fs) d).offset = ((stream fs).length : Nat))
    ∧ ((∀ f ∈ fs, unhandled f.type) → fs.length ≤ fuel →
      (parser env fuel (stream fs) d).completion = .normal
      ∧ (parser env fuel (stream fs) d).state = { d with data := stream fs }) := by
  have hiff : (parser env fuel (stream fs) d).completion = .normal
      ↔ handlersReturn env (stream fs) fuel 0 fs { d with data := stream fs } = true := by
    have := parserLoop_returns env (stream fs) fs fuel { d with data := stream fs } [] [] hne hval
      (by simp)
    simpa [parser] using this
  refine ⟨hiff, ?_, ?_⟩
  · intro hret
    have hnorm := hiff.mpr hret
    obtain ⟨h1, h2⟩ := parser_normal env fuel d fs hne hval hnorm
    exact ⟨hnorm, h1, by rw [h1], h2⟩
  · intro hun hfuel
    obtain ⟨k, hk⟩ : ∃ k, fuel = fs.length + k := ⟨fuel - fs.length, by omega⟩
    have h := parserLoop_skips env (stream fs) fs k { d with data := stream fs } [] []
      hne (fun f hf => ⟨hval f hf, hun f hf⟩) (by simp)
    have hrun : parser env fuel (stream fs) d
        = { state := { d with data := stream fs }, completion := .normal,
            offset := ((stream fs).length : Nat), dispatched := [] ++ fs } := by
      rw [hk]; exact h
    rw [hrun]
    exact ⟨rfl, rfl⟩

/-- Witness of `framing_of_complete_delivery`: the answer to "select 1" (a
row description, a data row, a command tag, a ready-for-query) on the
connected driver that has this query in flight: the four handler calls
return, so the run returns after four turns with the cursor at the end. -/
theorem framing_of_complete_delivery_witness :
    (parser demoEnv 4 (stream
      [{ type := 84, payload := [0, 1, 63, 99, 111, 108, 117, 109, 110, 63, 0, 0, 0, 0, 0, 0, 0, 0, 0, 0,
          23, 0, 4, 255, 255, 255, 255, 0, 0] },
       { type := 68, payload := [0, 1, 0, 0, 0, 1, 49] },
       { type := 67, payload := [83, 69, 76, 69, 67, 84, 32, 49, 0] },
       { type := 90, payload := [73] }]) inFlight).completion = .normal
    ∧ (parser demoEnv 4 (stream
      [{ type := 84, payload := [0, 1, 63, 99, 111, 108, 117, 109, 110, 63, 0, 0, 0, 0, 0, 0, 0, 0, 0, 0,
          23, 0, 4, 255, 255, 255, 255, 0, 0] },
       { type := 68, payload := [0, 1, 0, 0, 0, 1, 49] },
       { type := 67, payload := [83, 69, 76, 69, 67, 84, 32, 49, 0] },
       { type := 90, payload := [73] }]) inFlight).dispatched =
      [{ type := 84, payload := [0, 1, 63, 99, 111, 108, 117, 109, 110, 63, 0, 0, 0, 0, 0, 0, 0, 0, 0, 0,
          23, 0, 4, 255, 255, 255, 255, 0, 0] },
       { type := 68, payload := [0, 1, 0, 0, 0, 1, 49] },
       { type := 67, payload := [83, 69, 76, 69, 67, 84, 32, 49, 0] },
       { type := 90, payload := [73] }]
    ∧ (parser demoEnv 4 (stream
      [{ type := 84, payload := [0, 1, 63, 99, 111, 108, 117, 109, 110, 63, 0, 0, 0, 0, 0, 0, 0, 0, 0, 0,
          23, 0, 4, 255, 255, 255, 255, 0, 0] },
       { type := 68, payload := [0, 1, 0, 0, 0, 1, 49] },
       { type := 67, payload := [83, 69, 76, 69, 67, 84, 32, 49, 0] },
       { type := 90, payload := [73] }]) inFlight).dispatched.length = List.length
      ([{ type := 84, payload := [0, 1, 63, 99, 111, 108, 117, 109, 110, 63, 0, 0, 0, 0, 0, 0, 0, 0, 0, 0,
          23, 0, 4, 255, 255, 255, 255, 0, 0] },
       { type := 68, payload := [0, 1, 0, 0, 0, 1, 49] },
       { type := 67, payload := [83, 69, 76, 69, 67, 84, 32, 49, 0] },
       { type := 90, payload := [73] }] : List Frame)
    ∧ (parser demoEnv 4 (stream
      [{ type := 84, payload := [0, 1, 63, 99, 111, 108, 117, 109, 110, 63, 0, 0, 0, 0, 0, 0, 0, 0, 0, 0,
          23, 0, 4, 255, 255, 255, 255, 0, 0] },
       { type := 68, payload := [0, 1, 0, 0, 0, 1, 49] },
       { type := 67, payload := [83, 69, 76, 69, 67, 84, 32, 49, 0] },
       { type := 90, payload := [73] }]) inFlight).offset = ((stream
      [{ type := 84, payload := [0, 1, 63, 99, 111, 108, 117, 109, 110, 63, 0, 0, 0, 0, 0, 0, 0, 0, 0, 0,
          23, 0, 4, 255, 255, 255, 255, 0, 0] },
       { type := 68, payload := [0, 1, 0, 0, 0, 1, 49] },
       { type := 67, payload := [83, 69, 76, 69, 67, 84, 32, 49, 0] },
       { type := 90, payload := [73] }]).length : Nat) :=
  (framing_of_complete_delivery demoEnv 4 inFlight
      [{ type := 84, payload := [0, 1, 63, 99, 111, 108, 117, 109, 110, 63, 0, 0, 0, 0, 0, 0, 0, 0, 0, 0,
          23, 0, 4, 255, 255, 255, 255, 0, 0] },
       { type := 68, payload := [0, 1, 0, 0, 0, 1, 49] },
       { type := 67, payload := [83, 69, 76, 69, 67, 84, 32, 49, 0] },
       { type := 90, payload := [73] }]
      (by simp) (by intro f hf; simp at hf; rcases hf with h | h | h | h <;> subst h <;>
        simp [Frame.valid])).2.1 (by decide)

end PgDriver
